import Mathlib

/-!
Verification development for the signal-trading bot.

Prices, indicator readings and risk quantities are embedded as exact
rationals (ℚ): the source computes with JavaScript doubles, and every claim
under study concerns order relations and branch selection, not rounding.
A JavaScript value that can be `null`/`undefined` is embedded as `Option ℚ`;
a JavaScript truthiness test on a number (`if (x)`) is embedded as
"present and nonzero".  Comparisons against `undefined`/`NaN` (always false
in JavaScript) are embedded by comparison operators on `Option ℚ` that
return `false` when either side is absent.

Division-by-zero convention: `x / 0 = 0` in ℚ, while the source would
produce `Infinity`/`NaN`.  The two conventions only differ when the
entry-to-stop distance is zero; every theorem below that depends on a
ratio also carries (or derives) the fact that this distance is nonzero,
via the validation rule `riskPercentage ≥ 0.5`.
-/

namespace SignalBot

inductive Direction
  | LONG
  | SHORT
deriving DecidableEq, Repr

inductive Confidence
  | MEDIUM
  | HIGH
deriving DecidableEq, Repr

inductive MSTrend
  | BULLISH
  | BEARISH
deriving DecidableEq, Repr

/-- Result shape of `futuresIndicators.calculateSupertrend`: the `value` and
band fields are `Option ℚ` because the source can (and, as proved below,
always does) leave them `undefined`. -/
structure SupertrendResult where
  value : Option ℚ
  trend : ℤ
  upperBand : Option ℚ
  lowerBand : Option ℚ
deriving DecidableEq, Repr

structure MarketStructureResult where
  trend : MSTrend
  strength : ℚ
deriving DecidableEq, Repr

structure TrendIndicators where
  ema8 : Option ℚ
  ema21 : Option ℚ
  ema50 : Option ℚ
  supertrend : Option SupertrendResult
  marketStructure : Option MarketStructureResult
deriving DecidableEq, Repr

structure MomentumIndicators where
  mfi : Option ℚ
  williamsR : Option ℚ
  cci : Option ℚ
deriving DecidableEq, Repr

structure VolumeIndicators where
  vwap : Option ℚ
  obv : Option ℚ
deriving DecidableEq, Repr

/-- Futures-context data as `calculateAllIndicators` shapes it: a missing
funding snapshot is already coerced to `0` there (`fundingData?.fundingRate
|| 0`), while the liquidation ratio may be genuinely absent. -/
structure FuturesCtx where
  fundingRate : ℚ
  liquidationRatio : Option ℚ
deriving DecidableEq, Repr

structure SupportResistance where
  resistance : List ℚ
  support : List ℚ
deriving DecidableEq, Repr

/-- `atr` is kept plain here: the pipeline discards any symbol whose ATR is
unavailable (`hasRequiredIndicators`) before any function embedded below
runs. -/
structure RiskIndicators where
  atr : ℚ
  supportResistance : Option SupportResistance
deriving DecidableEq, Repr

structure Indicators where
  trend : TrendIndicators
  momentum : MomentumIndicators
  volume : VolumeIndicators
  futures : FuturesCtx
  risk : RiskIndicators
deriving DecidableEq, Repr

/-- Environment-configurable values of `config.riskManagement`. -/
structure RMConfig where
  defaultAccountBalance : ℚ
  defaultRiskPercentage : ℚ
  minRiskReward : ℚ
  maxLeverage : ℤ
deriving DecidableEq, Repr

def defaultRMConfig : RMConfig :=
  { defaultAccountBalance := 1000
    defaultRiskPercentage := 1.5
    minRiskReward := 2
    maxLeverage := 10 }

/-- Environment-configurable values of `config.signal`. -/
structure SignalConfig where
  minConfidence : ℚ
  highConfidence : ℚ
deriving DecidableEq, Repr

def defaultSignalConfig : SignalConfig :=
  { minConfidence := 65, highConfidence := 80 }

/-- `config.riskManagement.takeProfitMultipliers` (fixed literals). -/
def takeProfitMultipliers : Confidence → ℚ × ℚ × ℚ
  | .HIGH => (2, 3.5, 5.5)
  | .MEDIUM => (1.5, 2.8, 4.2)

/-- `config.riskManagement.stopLossMultipliers` (fixed literals). -/
def stopLossMultiplier : Confidence → ℚ
  | .HIGH => 1.2
  | .MEDIUM => 1.8

/-- `riskManagement.calculateEntryPrice`. -/
def calculateEntryPrice (currentPrice : ℚ) (d : Direction) (c : Confidence)
    (ind : Indicators) (atr : ℚ) : ℚ :=
  let atrMultiplier : ℚ := if c = .HIGH then 0.15 else 0.3
  let adjustment := atr * atrMultiplier
  match d with
  | .LONG =>
    let e0 := currentPrice - adjustment
    let e1 :=
      match ind.trend.supertrend with
      | some st =>
        match st.value with
        | some v => if v ≠ 0 ∧ st.trend = 1 ∧ e0 < v then v * 1.001 else e0
        | none => e0
      | none => e0
    match ind.volume.vwap with
    | some w => if w ≠ 0 ∧ e1 < w * 0.998 then w * 0.999 else e1
    | none => e1
  | .SHORT =>
    let e0 := currentPrice + adjustment
    let e1 :=
      match ind.trend.supertrend with
      | some st =>
        match st.value with
        | some v => if v ≠ 0 ∧ st.trend = -1 ∧ e0 > v then v * 0.999 else e0
        | none => e0
      | none => e0
    match ind.volume.vwap with
    | some w => if w ≠ 0 ∧ e1 > w * 1.002 then w * 1.001 else e1
    | none => e1

/-- The first resistance pivot strictly above the entry: the source walks the
resistance list and breaks at the first such level. -/
def firstResistanceAbove (sr : Option SupportResistance) (entryPrice : ℚ) : Option ℚ :=
  match sr with
  | some s => s.resistance.find? fun r => if r > entryPrice then true else false
  | none => none

/-- The first support pivot strictly below the entry. -/
def firstSupportBelow (sr : Option SupportResistance) (entryPrice : ℚ) : Option ℚ :=
  match sr with
  | some s => s.support.find? fun x => if x < entryPrice then true else false
  | none => none

/-- LONG take-profit clamp against the first resistance above entry
(`calculateTakeProfitLevels`, resistance loop). -/
def resistanceTPClamp (sr : Option SupportResistance) (entryPrice tp1 tp2 : ℚ) : ℚ × ℚ :=
  match firstResistanceAbove sr entryPrice with
  | some r =>
    (if tp1 > r * 0.995 then r * 0.995 else tp1,
     if tp2 > r * 0.99 ∧ tp2 < r * 1.1 then r * 0.99 else tp2)
  | none => (tp1, tp2)

/-- SHORT take-profit clamp against the first support below entry. -/
def supportTPClamp (sr : Option SupportResistance) (entryPrice tp1 tp2 : ℚ) : ℚ × ℚ :=
  match firstSupportBelow sr entryPrice with
  | some s =>
    (if tp1 < s * 1.005 then s * 1.005 else tp1,
     if tp2 < s * 1.01 ∧ tp2 > s * 0.9 then s * 1.01 else tp2)
  | none => (tp1, tp2)

/-- LONG TP2 clamp against the Supertrend upper band. -/
def upperBandTPClamp (st : Option SupertrendResult) (tp2 : ℚ) : ℚ :=
  match st with
  | some s =>
    match s.upperBand with
    | some ub => if ub ≠ 0 ∧ tp2 > ub then ub * 0.99 else tp2
    | none => tp2
  | none => tp2

/-- SHORT TP2 clamp against the Supertrend lower band. -/
def lowerBandTPClamp (st : Option SupertrendResult) (tp2 : ℚ) : ℚ :=
  match st with
  | some s =>
    match s.lowerBand with
    | some lb => if lb ≠ 0 ∧ tp2 < lb then lb * 1.01 else tp2
    | none => tp2
  | none => tp2

structure TakeProfits where
  tp1 : ℚ
  tp2 : ℚ
  tp3 : ℚ
deriving DecidableEq, Repr

/-- `riskManagement.calculateTakeProfitLevels`. -/
def calculateTakeProfitLevels (entryPrice : ℚ) (d : Direction) (c : Confidence)
    (ind : Indicators) (atr : ℚ) (sr : Option SupportResistance) : TakeProfits :=
  let m := takeProfitMultipliers c
  match d with
  | .LONG =>
    let t1 := entryPrice + atr * m.1
    let t2 := entryPrice + atr * m.2.1
    let t3 := entryPrice + atr * m.2.2
    let t12 := resistanceTPClamp sr entryPrice t1 t2
    ⟨t12.1, upperBandTPClamp ind.trend.supertrend t12.2, t3⟩
  | .SHORT =>
    let t1 := entryPrice - atr * m.1
    let t2 := entryPrice - atr * m.2.1
    let t3 := entryPrice - atr * m.2.2
    let t12 := supportTPClamp sr entryPrice t1 t2
    ⟨t12.1, lowerBandTPClamp ind.trend.supertrend t12.2, t3⟩

/-- Stop-loss clamp against the active Supertrend value
(`calculateStopLoss`, first clamp). -/
def supertrendStopClamp (st : Option SupertrendResult) (d : Direction) (s : ℚ) : ℚ :=
  match st with
  | some stv =>
    match stv.value with
    | some v =>
      match d with
      | .LONG => if v ≠ 0 ∧ stv.trend = 1 ∧ s > v then v * 0.998 else s
      | .SHORT => if v ≠ 0 ∧ stv.trend = -1 ∧ s < v then v * 1.002 else s
    | none => s
  | none => s

/-- Stop-loss clamp against the nearest support (LONG) / resistance (SHORT)
pivot on the stop side (`calculateStopLoss`, second clamp). -/
def pivotStopClamp (sr : Option SupportResistance) (d : Direction)
    (entryPrice s : ℚ) : ℚ :=
  match d with
  | .LONG =>
    match firstSupportBelow sr entryPrice with
    | some ns => if ns ≠ 0 ∧ s > ns * 0.995 then ns * 0.995 else s
    | none => s
  | .SHORT =>
    match firstResistanceAbove sr entryPrice with
    | some nr => if nr ≠ 0 ∧ s < nr * 1.005 then nr * 1.005 else s
    | none => s

/-- Stop-loss clamp against the medium-period EMA
(`calculateStopLoss`, third clamp). -/
def emaStopClamp (ema : Option ℚ) (d : Direction) (s : ℚ) : ℚ :=
  match ema with
  | some e21 =>
    match d with
    | .LONG => if e21 ≠ 0 ∧ s > e21 * 0.99 then e21 * 0.99 else s
    | .SHORT => if e21 ≠ 0 ∧ s < e21 * 1.01 then e21 * 1.01 else s
  | none => s

/-- `riskManagement.calculateStopLoss`. -/
def calculateStopLoss (entryPrice : ℚ) (d : Direction) (c : Confidence)
    (ind : Indicators) (atr : ℚ) (sr : Option SupportResistance) : ℚ :=
  let base :=
    match d with
    | .LONG => entryPrice - atr * stopLossMultiplier c
    | .SHORT => entryPrice + atr * stopLossMultiplier c
  emaStopClamp ind.trend.ema21 d
    (pivotStopClamp sr d entryPrice
      (supertrendStopClamp ind.trend.supertrend d base))

/-- `riskManagement.calculateRiskReward`. -/
def calculateRiskReward (entryPrice stopLoss : ℚ) (takeProfits : List ℚ) : List ℚ :=
  let risk := |entryPrice - stopLoss|
  takeProfits.map fun tp => |tp - entryPrice| / risk

structure PositionInfo where
  positionSize : ℚ
  basePositionSize : ℚ
  margin : ℚ
  leverage : ℤ
  riskAmount : ℚ
  riskPercentage : ℚ
  priceRiskPercentage : ℚ
deriving DecidableEq, Repr

/-- `riskManagement.calculatePositionSize`. -/
def calculatePositionSize (accountBalance riskPercentage entryPrice stopLoss : ℚ)
    (maxLeverage : ℤ) : PositionInfo :=
  let riskAmount := accountBalance * (riskPercentage / 100)
  let priceRisk := |entryPrice - stopLoss|
  let priceRiskPercentage := priceRisk / entryPrice
  let basePositionSize := riskAmount / priceRisk
  let optimalLeverage := min (max 1 ⌊(1 : ℚ) / priceRiskPercentage⌋) maxLeverage
  let leveragedPositionSize := basePositionSize * (optimalLeverage : ℚ)
  { positionSize := leveragedPositionSize
    basePositionSize := basePositionSize
    margin := leveragedPositionSize * entryPrice / (optimalLeverage : ℚ)
    leverage := optimalLeverage
    riskAmount := riskAmount
    riskPercentage := riskPercentage
    priceRiskPercentage := priceRiskPercentage * 100 }

/-- `riskManagement.calculateLiquidationPrice`. -/
def calculateLiquidationPrice (entryPrice : ℚ) (leverage : ℤ) (d : Direction) : ℚ :=
  let liquidationDistance := 1 / (leverage : ℚ) * 0.9
  match d with
  | .LONG => entryPrice * (1 - liquidationDistance)
  | .SHORT => entryPrice * (1 + liquidationDistance)

inductive RiskWarning
  | tightStop
  | wideStop
  | poorRiskReward
  | highLeverage
  | liquidationClose
deriving DecidableEq, Repr

inductive RiskLevel
  | LOW
  | MEDIUM
  | HIGH
  | EXTREME
deriving DecidableEq, Repr

/-- `riskManagement.calculateRiskLevel`. -/
def calculateRiskLevel (riskPercentage : ℚ) (leverage : ℤ) (riskReward : ℚ) : RiskLevel :=
  let s1 : ℤ := if riskPercentage < 1 then 1 else if riskPercentage < 2 then 2
    else if riskPercentage < 3 then 3 else 4
  let s2 : ℤ := if leverage ≤ 3 then 1 else if leverage ≤ 5 then 2
    else if leverage ≤ 10 then 3 else 4
  let s3 : ℤ := if riskReward ≥ 3 then 1 else if riskReward ≥ 2 then 2
    else if riskReward ≥ 1.5 then 3 else 4
  let score := s1 + s2 + s3
  if score ≤ 4 then .LOW else if score ≤ 7 then .MEDIUM
  else if score ≤ 10 then .HIGH else .EXTREME

structure RiskValidation where
  isValid : Bool
  warnings : List RiskWarning
  riskLevel : RiskLevel
deriving DecidableEq, Repr

/-- `riskManagement.validateRiskParameters`.  The source coerces a zero
risk-reward to `1` (`riskRewards?.[0] || 1`) before the risk-level scoring,
and emits the liquidation warning only behind the `leverage > 1` and
truthiness guards, exactly as embedded here. -/
def validateRiskParameters (entryPrice stopLoss : ℚ) (tps : TakeProfits)
    (positionInfo : PositionInfo) : RiskValidation :=
  let riskPercentage := |entryPrice - stopLoss| / entryPrice * 100
  let w1 : List RiskWarning := if riskPercentage < 0.5 then [.tightStop] else []
  let w2 : List RiskWarning := if riskPercentage > 5 then [.wideStop] else []
  let riskRewards := calculateRiskReward entryPrice stopLoss [tps.tp1, tps.tp2, tps.tp3]
  let w3 : List RiskWarning := if riskRewards.headD 0 < 1.5 then [.poorRiskReward] else []
  let w4 : List RiskWarning := if positionInfo.leverage > 20 then [.highLeverage] else []
  let liqPrice := calculateLiquidationPrice entryPrice positionInfo.leverage .LONG
  let w5 : List RiskWarning :=
    if positionInfo.leverage > 1 ∧ liqPrice ≠ 0 ∧ |entryPrice - liqPrice| / entryPrice < 0.1
    then [.liquidationClose] else []
  let warnings := w1 ++ w2 ++ w3 ++ w4 ++ w5
  { isValid := warnings.isEmpty
    warnings := warnings
    riskLevel := calculateRiskLevel riskPercentage positionInfo.leverage
      (if riskRewards.headD 0 = 0 then 1 else riskRewards.headD 0) }

/-- Entry price as `calculateRiskParameters` derives it from the pipeline
inputs. -/
def entryPriceOf (currentPrice : ℚ) (d : Direction) (c : Confidence)
    (ind : Indicators) : ℚ :=
  calculateEntryPrice currentPrice d c ind ind.risk.atr

def takeProfitsOf (currentPrice : ℚ) (d : Direction) (c : Confidence)
    (ind : Indicators) : TakeProfits :=
  calculateTakeProfitLevels (entryPriceOf currentPrice d c ind) d c ind
    ind.risk.atr ind.risk.supportResistance

def stopLossOf (currentPrice : ℚ) (d : Direction) (c : Confidence)
    (ind : Indicators) : ℚ :=
  calculateStopLoss (entryPriceOf currentPrice d c ind) d c ind
    ind.risk.atr ind.risk.supportResistance

def riskRewardsOf (currentPrice : ℚ) (d : Direction) (c : Confidence)
    (ind : Indicators) : List ℚ :=
  calculateRiskReward (entryPriceOf currentPrice d c ind)
    (stopLossOf currentPrice d c ind)
    [(takeProfitsOf currentPrice d c ind).tp1,
     (takeProfitsOf currentPrice d c ind).tp2,
     (takeProfitsOf currentPrice d c ind).tp3]

def positionInfoOf (cfg : RMConfig) (currentPrice : ℚ) (d : Direction)
    (c : Confidence) (ind : Indicators) : PositionInfo :=
  calculatePositionSize cfg.defaultAccountBalance cfg.defaultRiskPercentage
    (entryPriceOf currentPrice d c ind) (stopLossOf currentPrice d c ind)
    cfg.maxLeverage

structure RiskParameters where
  entryPrice : ℚ
  takeProfits : TakeProfits
  stopLoss : ℚ
  riskRewards : List ℚ
  positionInfo : PositionInfo
deriving DecidableEq, Repr

/-- `futuresTechnicalAnalysis.calculateRiskParameters`: derives entry, TP
ladder, stop and ratios, and rejects the signal when the first ratio is
below the configured minimum. -/
def calculateRiskParameters (cfg : RMConfig) (currentPrice : ℚ) (d : Direction)
    (c : Confidence) (ind : Indicators) : Option RiskParameters :=
  if (riskRewardsOf currentPrice d c ind).headD 0 < cfg.minRiskReward then none
  else some
    { entryPrice := entryPriceOf currentPrice d c ind
      takeProfits := takeProfitsOf currentPrice d c ind
      stopLoss := stopLossOf currentPrice d c ind
      riskRewards := riskRewardsOf currentPrice d c ind
      positionInfo := positionInfoOf cfg currentPrice d c ind }

def riskValidationOf (cfg : RMConfig) (currentPrice : ℚ) (d : Direction)
    (c : Confidence) (ind : Indicators) : RiskValidation :=
  validateRiskParameters (entryPriceOf currentPrice d c ind)
    (stopLossOf currentPrice d c ind) (takeProfitsOf currentPrice d c ind)
    (positionInfoOf cfg currentPrice d c ind)

/-- The acceptance gate of `futuresTechnicalAnalysis.analyzeToken` after a
signal has been scored: risk parameters must be produced, validation must
hold and the risk level must not be EXTREME; only then does the result
reach the monitor. -/
def analyzeTokenAccept (cfg : RMConfig) (currentPrice : ℚ) (d : Direction)
    (c : Confidence) (ind : Indicators) : Option RiskParameters :=
  match calculateRiskParameters cfg currentPrice d c ind with
  | none => none
  | some rp =>
    let rv := validateRiskParameters rp.entryPrice rp.stopLoss rp.takeProfits rp.positionInfo
    if rv.isValid = false ∨ rv.riskLevel = .EXTREME then none else some rp

/-- Bool test matching the source acceptance path while also requiring a
non-empty warning list; the counterexample below proves it constantly
false. -/
def acceptedWithWarnings (cfg : RMConfig) (currentPrice : ℚ) (d : Direction)
    (c : Confidence) (ind : Indicators) : Bool :=
  match analyzeTokenAccept cfg currentPrice d c ind with
  | some rp =>
    !(validateRiskParameters rp.entryPrice rp.stopLoss rp.takeProfits
        rp.positionInfo).warnings.isEmpty
  | none => false

inductive EMAAlignment
  | STRONG_BULL
  | BULL
  | STRONG_BEAR
  | BEAR
  | WEAK_BULL
  | WEAK_BEAR
  | NEUTRAL
deriving DecidableEq, Repr

/-- `futuresTechnicalAnalysis.getEMAAlignment`. -/
def getEMAAlignment (ema8 ema21 ema50 : ℚ) : EMAAlignment :=
  if ema8 > ema21 ∧ ema21 > ema50 then
    if ema8 > ema21 * 1.005 then .STRONG_BULL else .BULL
  else if ema8 < ema21 ∧ ema21 < ema50 then
    if ema8 < ema21 * 0.995 then .STRONG_BEAR else .BEAR
  else if ema8 > ema21 then .WEAK_BULL
  else if ema8 < ema21 then .WEAK_BEAR
  else .NEUTRAL

structure CategoryScore where
  longScore : ℚ
  shortScore : ℚ
  weight : ℚ
deriving DecidableEq, Repr

/-- JavaScript `x > y` where `y` may be `undefined`/`NaN` (then false). -/
def jsGtO (x : ℚ) : Option ℚ → Bool
  | none => false
  | some y => if x > y then true else false

/-- JavaScript `x < y` where `y` may be `undefined`/`NaN` (then false). -/
def jsLtO (x : ℚ) : Option ℚ → Bool
  | none => false
  | some y => if x < y then true else false

/-- `futuresTechnicalAnalysis.analyzeTrend` (scores and weight; the
human-readable `details` map carries no score and is omitted). -/
def analyzeTrend (price : ℚ) (t : TrendIndicators) : CategoryScore :=
  let emaLS : ℚ × ℚ :=
    match t.ema8, t.ema21, t.ema50 with
    | some e8, some e21, some e50 =>
      if e8 ≠ 0 ∧ e21 ≠ 0 ∧ e50 ≠ 0 then
        match getEMAAlignment e8 e21 e50 with
        | .STRONG_BULL => (15, 0)
        | .STRONG_BEAR => (0, 15)
        | .BULL => (10, 0)
        | .BEAR => (0, 10)
        | _ => (0, 0)
      else (0, 0)
    | _, _, _ => (0, 0)
  let stLS : ℚ × ℚ :=
    match t.supertrend with
    | some st =>
      if st.trend = 1 ∧ jsGtO price (st.value.map fun v => v * 1.001) then (15, 0)
      else if st.trend = -1 ∧ jsLtO price (st.value.map fun v => v * 0.999) then (0, 15)
      else (0, 0)
    | none => (0, 0)
  let msLS : ℚ × ℚ :=
    match t.marketStructure with
    | some ms =>
      if ms.trend = .BULLISH ∧ ms.strength > 0.6 then (10, 0)
      else if ms.trend = .BEARISH ∧ ms.strength > 0.6 then (0, 10)
      else (0, 0)
    | none => (0, 0)
  ⟨emaLS.1 + stLS.1 + msLS.1, emaLS.2 + stLS.2 + msLS.2, 40⟩

/-- `futuresTechnicalAnalysis.analyzeMomentum`. -/
def analyzeMomentum (m : MomentumIndicators) : CategoryScore :=
  let mfiLS : ℚ × ℚ :=
    match m.mfi with
    | some mfi =>
      if mfi ≠ 0 then
        if mfi < 20 then (10, 0)
        else if mfi > 80 then (0, 10)
        else if mfi < 40 then (5, 0)
        else if mfi > 60 then (0, 5)
        else (0, 0)
      else (0, 0)
    | none => (0, 0)
  let wrLS : ℚ × ℚ :=
    match m.williamsR with
    | some wr =>
      if wr ≠ 0 then
        if wr < -80 then (8, 0)
        else if wr > -20 then (0, 8)
        else (0, 0)
      else (0, 0)
    | none => (0, 0)
  let cciLS : ℚ × ℚ :=
    match m.cci with
    | some cci =>
      if cci ≠ 0 then
        if cci < -100 then (7, 0)
        else if cci > 100 then (0, 7)
        else (0, 0)
      else (0, 0)
    | none => (0, 0)
  ⟨mfiLS.1 + wrLS.1 + cciLS.1, mfiLS.2 + wrLS.2 + cciLS.2, 25⟩

/-- `futuresTechnicalAnalysis.analyzeVolume` (OBV is context only: it never
scores in the source). -/
def analyzeVolume (price : ℚ) (v : VolumeIndicators) : CategoryScore :=
  let vwapLS : ℚ × ℚ :=
    match v.vwap with
    | some w =>
      if w ≠ 0 then
        let diff := (price - w) / w * 100
        if diff > 0.3 then (20, 0)
        else if diff > 0.1 then (15, 0)
        else if diff < -0.3 then (0, 20)
        else if diff < -0.1 then (0, 15)
        else (0, 0)
      else (0, 0)
    | none => (0, 0)
  ⟨vwapLS.1, vwapLS.2, 20⟩

/-- `futuresTechnicalAnalysis.analyzeFuturesData` with the configured
extreme-funding threshold `0.01`. -/
def analyzeFuturesData (f : FuturesCtx) : CategoryScore :=
  let frLS : ℚ × ℚ :=
    if f.fundingRate ≠ 0 then
      if f.fundingRate > 0.01 then (0, 10)
      else if f.fundingRate < -0.01 then (10, 0)
      else if f.fundingRate > 0.005 then (0, 5)
      else if f.fundingRate < -0.005 then (5, 0)
      else (0, 0)
    else (0, 0)
  let liqLS : ℚ × ℚ :=
    match f.liquidationRatio with
    | some lr =>
      if lr > 0.75 then (5, 0)
      else if lr < 0.25 then (0, 5)
      else (0, 0)
    | none => (0, 0)
  ⟨frLS.1 + liqLS.1, frLS.2 + liqLS.2, 15⟩

def longScoreOf (price : ℚ) (ind : Indicators) : ℚ :=
  (analyzeTrend price ind.trend).longScore + (analyzeMomentum ind.momentum).longScore
    + (analyzeVolume price ind.volume).longScore
    + (analyzeFuturesData ind.futures).longScore

def shortScoreOf (price : ℚ) (ind : Indicators) : ℚ :=
  (analyzeTrend price ind.trend).shortScore + (analyzeMomentum ind.momentum).shortScore
    + (analyzeVolume price ind.volume).shortScore
    + (analyzeFuturesData ind.futures).shortScore

/-- The running total-weight denominator of `generateFuturesSignal`. -/
def totalWeightOf (price : ℚ) (ind : Indicators) : ℚ :=
  (analyzeTrend price ind.trend).weight + (analyzeMomentum ind.momentum).weight
    + (analyzeVolume price ind.volume).weight
    + (analyzeFuturesData ind.futures).weight

def longStrengthOf (price : ℚ) (ind : Indicators) : ℚ :=
  longScoreOf price ind / totalWeightOf price ind * 100

def shortStrengthOf (price : ℚ) (ind : Indicators) : ℚ :=
  shortScoreOf price ind / totalWeightOf price ind * 100

/-- Category availability in the sense of the specification ("categories
whose underlying indicators were actually available"); used to compare the
specified denominator with the implemented one. -/
def momentumAvailable (m : MomentumIndicators) : Bool :=
  m.mfi.isSome || m.williamsR.isSome || m.cci.isSome

def trendAvailable (t : TrendIndicators) : Bool :=
  t.ema8.isSome || t.ema21.isSome || t.ema50.isSome || t.supertrend.isSome
    || t.marketStructure.isSome

def volumeAvailable (v : VolumeIndicators) : Bool :=
  v.vwap.isSome || v.obv.isSome

def futuresAvailable (f : FuturesCtx) : Bool :=
  (if f.fundingRate = 0 then false else true) || f.liquidationRatio.isSome

/-- Modelled from the spec: the total-weight denominator as the
specification words it, counting a category weight only when the category
is available.  For comparison with `totalWeightOf` only; the source has no
such computation. -/
def totalWeightSpecExcluding (ind : Indicators) : ℚ :=
  (if trendAvailable ind.trend then (40 : ℚ) else 0)
    + (if momentumAvailable ind.momentum then (25 : ℚ) else 0)
    + (if volumeAvailable ind.volume then (20 : ℚ) else 0)
    + (if futuresAvailable ind.futures then (15 : ℚ) else 0)

structure Signal where
  direction : Direction
  strength : ℚ
  confidence : Confidence
deriving DecidableEq, Repr

/-- `futuresTechnicalAnalysis.generateFuturesSignal` decision step. -/
def generateFuturesSignal (cfg : SignalConfig) (price : ℚ) (ind : Indicators) :
    Option Signal :=
  let longStrength := longStrengthOf price ind
  let shortStrength := shortStrengthOf price ind
  if longStrength ≥ cfg.minConfidence then
    some ⟨.LONG, longStrength,
      if longStrength ≥ cfg.highConfidence then .HIGH else .MEDIUM⟩
  else if shortStrength ≥ cfg.minConfidence then
    some ⟨.SHORT, shortStrength,
      if shortStrength ≥ cfg.highConfidence then .HIGH else .MEDIUM⟩
  else none

structure Candle where
  timestamp : ℤ
  openPrice : ℚ
  high : ℚ
  low : ℚ
  close : ℚ
  volume : ℚ
deriving DecidableEq, Repr

/-- True ranges of consecutive candle pairs (`calculateATRArray`, first loop). -/
def trueRangesOf (ohlcv : List Candle) : List ℚ :=
  (ohlcv.zip ohlcv.tail).map fun pc =>
    max (pc.2.high - pc.2.low) (max |pc.2.high - pc.1.close| |pc.2.low - pc.1.close|)

/-- `futuresIndicators.calculateATRArray`: rolling means of `period` true
ranges. -/
def calculateATRArray (ohlcv : List Candle) (period : ℕ) : List ℚ :=
  let trueRanges := trueRangesOf ohlcv
  (List.range (trueRanges.length + 1 - period)).map fun j =>
    ((trueRanges.drop j).take period).sum / (period : ℚ)

/-- Loop state of `calculateSupertrend`: in the source these are plain
`let` variables that start `undefined`, hence the `Option`s. -/
structure STState where
  upperBand : Option ℚ
  lowerBand : Option ℚ
  stValue : Option ℚ
  trend : ℤ
deriving DecidableEq, Repr

/-- JavaScript `<` on possibly-undefined/NaN operands (false if either is). -/
def jsLtOO : Option ℚ → Option ℚ → Bool
  | some x, some y => if x < y then true else false
  | _, _ => false

def jsGtOO : Option ℚ → Option ℚ → Bool
  | some x, some y => if x > y then true else false
  | _, _ => false

def jsLeOO : Option ℚ → Option ℚ → Bool
  | some x, some y => if x ≤ y then true else false
  | _, _ => false

def jsGeOO : Option ℚ → Option ℚ → Bool
  | some x, some y => if x ≥ y then true else false
  | _, _ => false

/-- One iteration of the `calculateSupertrend` loop at candle index `i`.
`atrArr.get? (i - 1)` mirrors the source index `atr[i - 1]` (frequently out
of range, yielding `undefined`, i.e. `none`). -/
def supertrendStep (ohlcv : List Candle) (atrArr : List ℚ) (multiplier : ℚ)
    (s : STState) (i : ℕ) : STState :=
  let hl2 := (ohlcv.get? i).map fun cd => (cd.high + cd.low) / 2
  let currentATR := atrArr.get? (i - 1)
  let newUpperBand : Option ℚ :=
    match hl2, currentATR with
    | some h, some a => some (h + multiplier * a)
    | _, _ => none
  let newLowerBand : Option ℚ :=
    match hl2, currentATR with
    | some h, some a => some (h - multiplier * a)
    | _, _ => none
  let prevClose := (ohlcv.get? (i - 1)).map Candle.close
  let upperBand :=
    if jsLtOO newUpperBand s.upperBand || jsGtOO prevClose s.upperBand
    then newUpperBand else s.upperBand
  let lowerBand :=
    if jsGtOO newLowerBand s.lowerBand || jsLtOO prevClose s.lowerBand
    then newLowerBand else s.lowerBand
  let close := (ohlcv.get? i).map Candle.close
  if jsLeOO close lowerBand then
    ⟨upperBand, lowerBand, upperBand, -1⟩
  else if jsGeOO close upperBand then
    ⟨upperBand, lowerBand, lowerBand, 1⟩
  else
    ⟨upperBand, lowerBand, if s.trend = 1 then lowerBand else upperBand, s.trend⟩

/-- `futuresIndicators.calculateSupertrend`: the loop runs over candle
indices `period … length-1` from an all-undefined state with trend `1`. -/
def calculateSupertrend (ohlcv : List Candle) (period : ℕ) (multiplier : ℚ) :
    Option SupertrendResult :=
  if ohlcv.length < period + 10 then none
  else
    let atrArr := calculateATRArray ohlcv period
    if atrArr.length = 0 then none
    else
      let final := (List.range' period (ohlcv.length - period)).foldl
        (supertrendStep ohlcv atrArr multiplier) ⟨none, none, none, 1⟩
      some ⟨final.stValue, final.trend, final.upperBand, final.lowerBand⟩

inductive TradeStatus
  | ACTIVE
  | COMPLETED
  | STOPPED_OUT
  | EXPIRED
  | MANUAL_REMOVAL
deriving DecidableEq, Repr

inductive CompletionReason
  | TP3_HIT
  | STOP_LOSS
  | EXPIRED
  | MANUAL_REMOVAL
deriving DecidableEq, Repr

structure TpHit where
  tp1 : Bool
  tp2 : Bool
  tp3 : Bool
deriving DecidableEq, Repr

structure Trade where
  id : String
  symbol : String
  direction : Direction
  entryPrice : ℚ
  takeProfits : TakeProfits
  stopLoss : ℚ
  timestampMs : ℕ
  status : TradeStatus
  tpHit : TpHit
  slHit : Bool
  entryFilled : Bool
deriving DecidableEq, Repr

/-- An archived trade as `completeTrade` produces it: the trade object as it
was (its `status` field is copied, not rewritten) plus the completion
reason. -/
structure ArchivedTrade where
  trade : Trade
  completionReason : CompletionReason
deriving DecidableEq, Repr

structure MonitorState where
  activeTrades : List (String × Trade)
  completedTrades : List ArchivedTrade
deriving DecidableEq, Repr

def maxCompletedTrades : ℕ := 50

def mapLookup (k : String) : List (String × Trade) → Option Trade
  | [] => none
  | p :: rest => if p.1 = k then some p.2 else mapLookup k rest

def mapSet (k : String) (v : Trade) : List (String × Trade) → List (String × Trade)
  | [] => [(k, v)]
  | p :: rest => if p.1 = k then (k, v) :: rest else p :: mapSet k v rest

def mapDelete (k : String) : List (String × Trade) → List (String × Trade)
  | [] => []
  | p :: rest => if p.1 = k then mapDelete k rest else p :: mapDelete k rest

/-- `tradeMonitor.completeTrade`: archive (newest first, capacity 50) and
remove from the active registry. -/
def completeTrade (st : MonitorState) (t : Trade) (reason : CompletionReason) :
    MonitorState :=
  { activeTrades := mapDelete t.id st.activeTrades
    completedTrades :=
      (({ trade := t, completionReason := reason } : ArchivedTrade)
        :: st.completedTrades).take maxCompletedTrades }

def tpTargetReached (d : Direction) (currentPrice target : ℚ) : Bool :=
  match d with
  | .LONG => if currentPrice ≥ target then true else false
  | .SHORT => if currentPrice ≤ target then true else false

/-- `tradeMonitor.checkTakeProfitLevels` on one trade: the three gated TP
checks in source order; the Bool reports whether TP3 completed the trade
(the source then calls `completeTrade` with reason `TP3_HIT`). -/
def checkTakeProfitLevels (t : Trade) (currentPrice : ℚ) : Trade × Bool :=
  let t1 := if !t.tpHit.tp1 && tpTargetReached t.direction currentPrice t.takeProfits.tp1
    then { t with tpHit := { t.tpHit with tp1 := true } } else t
  let t2 := if t1.tpHit.tp1 && !t1.tpHit.tp2
      && tpTargetReached t1.direction currentPrice t1.takeProfits.tp2
    then { t1 with tpHit := { t1.tpHit with tp2 := true } } else t1
  if t2.tpHit.tp2 && !t2.tpHit.tp3
      && tpTargetReached t2.direction currentPrice t2.takeProfits.tp3
  then ({ t2 with tpHit := { t2.tpHit with tp3 := true }, status := .COMPLETED }, true)
  else (t2, false)

/-- The monitor-level effect of one TP poll on one trade: skip when the
trade is unknown or not yet filled; otherwise update it, and archive it
when TP3 completed it. -/
def monitorCheckTakeProfits (st : MonitorState) (tradeId : String)
    (currentPrice : ℚ) : MonitorState :=
  match mapLookup tradeId st.activeTrades with
  | none => st
  | some t =>
    if !t.entryFilled then st
    else
      let r := checkTakeProfitLevels t currentPrice
      if r.2 then
        completeTrade { st with activeTrades := mapSet tradeId r.1 st.activeTrades }
          r.1 CompletionReason.TP3_HIT
      else { st with activeTrades := mapSet tradeId r.1 st.activeTrades }

/-- `tradeMonitor.removeTrade`: archives an active trade under the given
reason (default in source: MANUAL_REMOVAL) without touching its fields. -/
def removeTrade (st : MonitorState) (tradeId : String)
    (reason : CompletionReason) : MonitorState × Bool :=
  match mapLookup tradeId st.activeTrades with
  | some t => (completeTrade st t reason, true)
  | none => (st, false)

structure SignalData where
  symbol : String
  direction : Direction
  entryPrice : ℚ
  currentPrice : ℚ
  takeProfits : TakeProfits
  stopLoss : ℚ
  timestampMs : ℕ
deriving DecidableEq, Repr

def directionChars : Direction → List Char
  | .LONG => String.data "LONG"
  | .SHORT => String.data "SHORT"

/-- JavaScript `String.prototype.replace` with a one-character pattern:
only the first occurrence is replaced (here: removed). -/
def removeFirstChar (c : Char) : List Char → List Char
  | [] => []
  | x :: xs => if x = c then xs else x :: removeFirstChar c xs

def digitChar (d : ℕ) : Char := Char.ofNat (48 + d)

def natDigitsAux : ℕ → ℕ → List Char
  | 0, _ => []
  | fuel + 1, n =>
    if n < 10 then [digitChar n]
    else natDigitsAux fuel (n / 10) ++ [digitChar (n % 10)]

/-- Decimal rendering of a natural number (JavaScript template-literal
interpolation of the millisecond timestamp). -/
def natToChars (n : ℕ) : List Char := natDigitsAux (n + 1) n

def slashChar : Char := Char.ofNat 47

def underscoreChar : Char := Char.ofNat 95

/-- `tradeMonitor.generateTradeId`: symbol with its first slash removed,
direction and millisecond timestamp, joined by underscores and truncated to
32 characters. -/
def generateTradeId (sd : SignalData) : String :=
  ⟨(removeFirstChar slashChar sd.symbol.data
      ++ underscoreChar :: directionChars sd.direction
      ++ underscoreChar :: natToChars sd.timestampMs).take 32⟩

/-- Minute bucket of a millisecond timestamp (the identity the spec claims
the trade id is derived from). -/
def minuteBucketOf (ms : ℕ) : ℕ := ms / 60000

/-- The fresh trade object `addTrade` builds. -/
def newTrade (sd : SignalData) : Trade :=
  { id := generateTradeId sd
    symbol := sd.symbol
    direction := sd.direction
    entryPrice := sd.entryPrice
    takeProfits := sd.takeProfits
    stopLoss := sd.stopLoss
    timestampMs := sd.timestampMs
    status := .ACTIVE
    tpHit := ⟨false, false, false⟩
    slHit := false
    entryFilled := false }

/-- `tradeMonitor.addTrade`: no-op when monitoring is disabled, otherwise a
keyed insert (JavaScript `Map.set`, overwriting an existing id). -/
def addTrade (monitoringEnabled : Bool) (st : MonitorState) (sd : SignalData) :
    MonitorState × Option String :=
  if !monitoringEnabled then (st, none)
  else
    let tid := generateTradeId sd
    ({ st with activeTrades := mapSet tid (newTrade sd) st.activeTrades }, some tid)

/-- TP flags are set in ladder order. -/
def OrderedTp (h : TpHit) : Prop :=
  (h.tp2 = true → h.tp1 = true) ∧ (h.tp3 = true → h.tp2 = true)

/-- Nonnegativity of the optional Supertrend levels fed to the clamps
(prices; the claims' inputs). -/
def nonnegOptQ : Option ℚ → Bool
  | none => true
  | some v => if 0 ≤ v then true else false

def nonnegSupertrendB : Option SupertrendResult → Bool
  | none => true
  | some st => nonnegOptQ st.value && nonnegOptQ st.upperBand && nonnegOptQ st.lowerBand

/-! Concrete inputs used by the witnesses and counterexamples below. -/

/-- A legal environment configuration (`MIN_RISK_REWARD=1.5`,
`MAX_LEVERAGE=5`). -/
def cfgC1 : RMConfig :=
  { defaultAccountBalance := 1000
    defaultRiskPercentage := 1.5
    minRiskReward := 1.5
    maxLeverage := 5 }

def superC1 : SupertrendResult :=
  { value := none, trend := -1, upperBand := some 50, lowerBand := none }

def indC1 : Indicators :=
  { trend :=
      { ema8 := some 100, ema21 := some 99.8, ema50 := none
        supertrend := some superC1, marketStructure := none }
    momentum := { mfi := none, williamsR := none, cci := none }
    volume := { vwap := some 100, obv := none }
    futures := { fundingRate := 0, liquidationRatio := none }
    risk := { atr := 1, supportResistance := none } }

/-- The risk parameters the pipeline accepts on `indC1`. -/
def rpC1 : RiskParameters :=
  { entryPrice := 100
    takeProfits := ⟨102, 49.5, 105.5⟩
    stopLoss := 98.8
    riskRewards := [5/3, 505/12, 55/12]
    positionInfo :=
      { positionSize := 62.5
        basePositionSize := 12.5
        margin := 1250
        leverage := 5
        riskAmount := 15
        riskPercentage := 1.5
        priceRiskPercentage := 1.2 } }

/-- Indicator set for the documented rejection scenario: ATR 2, no clamp
source present. -/
def indC2 : Indicators :=
  { trend :=
      { ema8 := none, ema21 := none, ema50 := none
        supertrend := none, marketStructure := none }
    momentum := { mfi := none, williamsR := none, cci := none }
    volume := { vwap := none, obv := none }
    futures := { fundingRate := 0, liquidationRatio := none }
    risk := { atr := 2, supportResistance := none } }

/-- Indicator set with every category unavailable. -/
def indAbsent : Indicators :=
  { trend :=
      { ema8 := none, ema21 := none, ema50 := none
        supertrend := none, marketStructure := none }
    momentum := { mfi := none, williamsR := none, cci := none }
    volume := { vwap := none, obv := none }
    futures := { fundingRate := 0, liquidationRatio := none }
    risk := { atr := 1, supportResistance := none } }

/-- Indicator set on which every category votes LONG at price 100. -/
def indC4 : Indicators :=
  { trend :=
      { ema8 := some 102, ema21 := some 101, ema50 := some 100
        supertrend := some { value := some 90, trend := 1, upperBand := none, lowerBand := none }
        marketStructure := some { trend := .BULLISH, strength := 0.7 } }
    momentum := { mfi := some 10, williamsR := some (-90), cci := some (-150) }
    volume := { vwap := some 99, obv := none }
    futures := { fundingRate := -0.02, liquidationRatio := some 0.8 }
    risk := { atr := 1, supportResistance := none } }

/-- Indicator set whose Supertrend value sits far below the raw stop. -/
def indC5 : Indicators :=
  { trend :=
      { ema8 := none, ema21 := none, ema50 := none
        supertrend := some { value := some 90, trend := 1, upperBand := none, lowerBand := none }
        marketStructure := none }
    momentum := { mfi := none, williamsR := none, cci := none }
    volume := { vwap := none, obv := none }
    futures := { fundingRate := 0, liquidationRatio := none }
    risk := { atr := 1, supportResistance := none } }

def tpsC6 : TakeProfits := ⟨101, 102, 103⟩

def trC6 : Trade :=
  { id := "T6", symbol := "BTC/USDT", direction := .LONG, entryPrice := 100
    takeProfits := tpsC6, stopLoss := 99, timestampMs := 0, status := .ACTIVE
    tpHit := ⟨false, false, false⟩, slHit := false, entryFilled := true }

def stMonC6 : MonitorState := ⟨[("T6", trC6)], []⟩

def trC7 : Trade :=
  { id := "T7", symbol := "ETH/USDT", direction := .SHORT, entryPrice := 50
    takeProfits := ⟨49, 48, 47⟩, stopLoss := 51, timestampMs := 0, status := .ACTIVE
    tpHit := ⟨false, false, false⟩, slHit := false, entryFilled := true }

def stMonC7 : MonitorState := ⟨[("T7", trC7)], []⟩

def sdC8a : SignalData :=
  { symbol := "BTC/USDT", direction := .LONG, entryPrice := 100, currentPrice := 100
    takeProfits := ⟨101, 102, 103⟩, stopLoss := 99, timestampMs := 60000 }

def sdC8b : SignalData :=
  { symbol := "BTC/USDT", direction := .LONG, entryPrice := 100, currentPrice := 100
    takeProfits := ⟨101, 102, 103⟩, stopLoss := 99, timestampMs := 60001 }

def candlesC9 : List Candle :=
  List.replicate 20 { timestamp := 0, openPrice := 1, high := 2, low := 1, close := 1.5, volume := 1 }

/-- Invariant of the supertrend loop state: bands and value stay undefined
and the trend stays 1. -/
def STUntouched (s : STState) : Prop :=
  s.upperBand = none ∧ s.lowerBand = none ∧ s.stValue = none ∧ s.trend = 1

/-! Helper lemmas. -/

lemma jsLtOO_none (x : Option ℚ) : jsLtOO x none = false := by
  cases x <;> rfl

lemma jsGtOO_none (x : Option ℚ) : jsGtOO x none = false := by
  cases x <;> rfl

lemma jsLeOO_none (x : Option ℚ) : jsLeOO x none = false := by
  cases x <;> rfl

lemma jsGeOO_none (x : Option ℚ) : jsGeOO x none = false := by
  cases x <;> rfl

lemma supertrendStep_untouched (ohlcv : List Candle) (atrArr : List ℚ)
    (m : ℚ) (s : STState) (i : ℕ) (h : STUntouched s) :
    STUntouched (supertrendStep ohlcv atrArr m s i) := by
  obtain ⟨h1, h2, h3, h4⟩ := h
  unfold supertrendStep
  simp [h1, h2, h3, h4, jsLtOO_none, jsGtOO_none, jsLeOO_none, jsGeOO_none, STUntouched]

lemma supertrendFold_untouched (ohlcv : List Candle) (atrArr : List ℚ) (m : ℚ) :
    ∀ (l : List ℕ) (s : STState), STUntouched s →
      STUntouched (l.foldl (supertrendStep ohlcv atrArr m) s)
  | [], _, h => h
  | i :: l, s, h =>
    supertrendFold_untouched ohlcv atrArr m l _
      (supertrendStep_untouched ohlcv atrArr m s i h)

lemma calculateSupertrend_shape (ohlcv : List Candle) (period : ℕ) (multiplier : ℚ) :
    calculateSupertrend ohlcv period multiplier = none ∨
    calculateSupertrend ohlcv period multiplier =
      some { value := none, trend := 1, upperBand := none, lowerBand := none } := by
  have h := supertrendFold_untouched ohlcv (calculateATRArray ohlcv period) multiplier
    (List.range' period (ohlcv.length - period)) ⟨none, none, none, 1⟩
    ⟨rfl, rfl, rfl, rfl⟩
  obtain ⟨hu, hl, hv, ht⟩ := h
  simp only [calculateSupertrend]
  split_ifs with h1 h2
  · exact Or.inl rfl
  · exact Or.inl rfl
  · right
    simp [hu, hl, hv, ht]

lemma mapSet_mapSet (k : String) (v : Trade) (l : List (String × Trade)) :
    mapSet k v (mapSet k v l) = mapSet k v l := by
  induction l with
  | nil => simp [mapSet]
  | cons p rest ih =>
    by_cases h : p.1 = k
    · simp [mapSet, h]
    · simp [mapSet, h, ih]

lemma mapLookup_delete (k : String) (l : List (String × Trade)) :
    mapLookup k (mapDelete k l) = none := by
  induction l with
  | nil => rfl
  | cons p rest ih =>
    by_cases h : p.1 = k
    · simp [mapDelete, h, ih]
    · simp [mapDelete, mapLookup, h, ih]

lemma archive_head (a : ArchivedTrade) (l : List ArchivedTrade) :
    ((a :: l).take maxCompletedTrades).head? = some a := by
  rw [show maxCompletedTrades = 49 + 1 from rfl, List.take_succ_cons]
  rfl

lemma checkTakeProfitLevels_id (t : Trade) (p : ℚ) :
    (checkTakeProfitLevels t p).1.id = t.id := by
  simp only [checkTakeProfitLevels]
  split_ifs <;> rfl

lemma analyzeTrend_absent (price : ℚ) (t : TrendIndicators)
    (h : trendAvailable t = false) :
    (analyzeTrend price t).longScore = 0 ∧ (analyzeTrend price t).shortScore = 0 := by
  have h8 : t.ema8 = none := by
    cases hx : t.ema8
    · rfl
    · simp [trendAvailable, hx] at h
  have h21 : t.ema21 = none := by
    cases hx : t.ema21
    · rfl
    · simp [trendAvailable, hx] at h
  have h50 : t.ema50 = none := by
    cases hx : t.ema50
    · rfl
    · simp [trendAvailable, hx] at h
  have hst : t.supertrend = none := by
    cases hx : t.supertrend
    · rfl
    · simp [trendAvailable, hx] at h
  have hms : t.marketStructure = none := by
    cases hx : t.marketStructure
    · rfl
    · simp [trendAvailable, hx] at h
  simp [analyzeTrend, h8, h21, h50, hst, hms]

lemma analyzeMomentum_absent (m : MomentumIndicators)
    (h : momentumAvailable m = false) :
    (analyzeMomentum m).longScore = 0 ∧ (analyzeMomentum m).shortScore = 0 := by
  have h1 : m.mfi = none := by
    cases hx : m.mfi
    · rfl
    · simp [momentumAvailable, hx] at h
  have h2 : m.williamsR = none := by
    cases hx : m.williamsR
    · rfl
    · simp [momentumAvailable, hx] at h
  have h3 : m.cci = none := by
    cases hx : m.cci
    · rfl
    · simp [momentumAvailable, hx] at h
  simp [analyzeMomentum, h1, h2, h3]

lemma analyzeVolume_absent (price : ℚ) (v : VolumeIndicators)
    (h : volumeAvailable v = false) :
    (analyzeVolume price v).longScore = 0 ∧ (analyzeVolume price v).shortScore = 0 := by
  have h1 : v.vwap = none := by
    cases hx : v.vwap
    · rfl
    · simp [volumeAvailable, hx] at h
  simp [analyzeVolume, h1]

lemma analyzeFuturesData_absent (f : FuturesCtx)
    (h : futuresAvailable f = false) :
    (analyzeFuturesData f).longScore = 0 ∧ (analyzeFuturesData f).shortScore = 0 := by
  have h1 : f.fundingRate = 0 := by
    by_cases hx : f.fundingRate = 0
    · exact hx
    · simp [futuresAvailable, hx] at h
  have h2 : f.liquidationRatio = none := by
    cases hx : f.liquidationRatio
    · rfl
    · simp [futuresAvailable, hx] at h
  simp [analyzeFuturesData, h1, h2]

lemma validate_isValid (e s : ℚ) (tps : TakeProfits) (pi : PositionInfo) :
    (validateRiskParameters e s tps pi).isValid =
      (validateRiskParameters e s tps pi).warnings.isEmpty := rfl

lemma riskValidationOf_isValid (cfg : RMConfig) (p : ℚ) (d : Direction)
    (c : Confidence) (ind : Indicators) :
    (riskValidationOf cfg p d c ind).isValid =
      (riskValidationOf cfg p d c ind).warnings.isEmpty := rfl

lemma calculateRiskParameters_some (cfg : RMConfig) (p : ℚ) (d : Direction)
    (c : Confidence) (ind : Indicators) (rp : RiskParameters)
    (h : calculateRiskParameters cfg p d c ind = some rp) :
    rp = { entryPrice := entryPriceOf p d c ind
           takeProfits := takeProfitsOf p d c ind
           stopLoss := stopLossOf p d c ind
           riskRewards := riskRewardsOf p d c ind
           positionInfo := positionInfoOf cfg p d c ind } ∧
    ¬((riskRewardsOf p d c ind).headD 0 < cfg.minRiskReward) := by
  by_cases hgate : (riskRewardsOf p d c ind).headD 0 < cfg.minRiskReward
  · rw [calculateRiskParameters, if_pos hgate] at h
    exact absurd h (by simp)
  · rw [calculateRiskParameters, if_neg hgate] at h
    exact ⟨((Option.some.injEq _ _).mp h).symm, hgate⟩

lemma accept_extract (cfg : RMConfig) (p : ℚ) (d : Direction) (c : Confidence)
    (ind : Indicators) (rp : RiskParameters)
    (h : analyzeTokenAccept cfg p d c ind = some rp) :
    rp = { entryPrice := entryPriceOf p d c ind
           takeProfits := takeProfitsOf p d c ind
           stopLoss := stopLossOf p d c ind
           riskRewards := riskRewardsOf p d c ind
           positionInfo := positionInfoOf cfg p d c ind } ∧
    ¬((riskRewardsOf p d c ind).headD 0 < cfg.minRiskReward) ∧
    (riskValidationOf cfg p d c ind).warnings = [] ∧
    (riskValidationOf cfg p d c ind).riskLevel ≠ RiskLevel.EXTREME := by
  unfold analyzeTokenAccept at h
  cases hcp : calculateRiskParameters cfg p d c ind with
  | none =>
    rw [hcp] at h
    exact absurd h (by simp)
  | some rp1 =>
    rw [hcp] at h
    simp only [] at h
    obtain ⟨hrp1, hgate⟩ := calculateRiskParameters_some cfg p d c ind rp1 hcp
    by_cases hrej :
      (validateRiskParameters rp1.entryPrice rp1.stopLoss rp1.takeProfits
        rp1.positionInfo).isValid = false ∨
      (validateRiskParameters rp1.entryPrice rp1.stopLoss rp1.takeProfits
        rp1.positionInfo).riskLevel = RiskLevel.EXTREME
    · rw [if_pos hrej] at h
      exact absurd h (by simp)
    · rw [if_neg hrej] at h
      have hrp : rp1 = rp := (Option.some.injEq _ _).mp h
      rw [not_or] at hrej
      obtain ⟨hval, hlev⟩ := hrej
      rw [hrp1] at hval hlev
      have hval2 : ¬((riskValidationOf cfg p d c ind).isValid = false) := hval
      have hlev2 : ¬((riskValidationOf cfg p d c ind).riskLevel = RiskLevel.EXTREME) := hlev
      refine ⟨by rw [← hrp, hrp1], hgate, ?_, hlev2⟩
      have hv : (riskValidationOf cfg p d c ind).isValid = true := by
        cases hb : (riskValidationOf cfg p d c ind).isValid
        · exact absurd hb hval2
        · rfl
      rw [riskValidationOf_isValid] at hv
      exact List.isEmpty_iff.mp hv

lemma accept_warnings_nil (cfg : RMConfig) (p : ℚ) (d : Direction) (c : Confidence)
    (ind : Indicators) (rp : RiskParameters)
    (h : analyzeTokenAccept cfg p d c ind = some rp) :
    (validateRiskParameters rp.entryPrice rp.stopLoss rp.takeProfits rp.positionInfo).warnings = [] := by
  obtain ⟨hrp, _, hw, _⟩ := accept_extract cfg p d c ind rp h
  subst hrp
  exact hw

lemma boolIf_eq_true (c : Prop) [Decidable c] :
    ((if c then true else false) = true) ↔ c := by
  split_ifs with h <;> simp [h]

lemma nonnegSupertrendB_value (st : SupertrendResult) (v : ℚ)
    (h : nonnegSupertrendB (some st) = true) (hv : st.value = some v) : 0 ≤ v := by
  rw [nonnegSupertrendB, hv] at h
  simp only [Bool.and_eq_true] at h
  exact (boolIf_eq_true _).mp h.1.1

lemma nonnegSupertrendB_upper (st : SupertrendResult) (v : ℚ)
    (h : nonnegSupertrendB (some st) = true) (hv : st.upperBand = some v) : 0 ≤ v := by
  rw [nonnegSupertrendB, hv] at h
  simp only [Bool.and_eq_true] at h
  exact (boolIf_eq_true _).mp h.1.2

lemma nonnegSupertrendB_lower (st : SupertrendResult) (v : ℚ)
    (h : nonnegSupertrendB (some st) = true) (hv : st.lowerBand = some v) : 0 ≤ v := by
  rw [nonnegSupertrendB, hv] at h
  simp only [Bool.and_eq_true] at h
  exact (boolIf_eq_true _).mp h.2

lemma supertrendStopClamp_le_long (st : Option SupertrendResult) (s : ℚ)
    (h : nonnegSupertrendB st = true) :
    supertrendStopClamp st Direction.LONG s ≤ s := by
  cases st with
  | none => exact le_refl s
  | some stv =>
    cases hv : stv.value with
    | none => simp [supertrendStopClamp, hv]
    | some v =>
      have hnn : (0 : ℚ) ≤ v := nonnegSupertrendB_value stv v h hv
      simp only [supertrendStopClamp, hv]
      split_ifs with hc
      · nlinarith [hc.2.2]
      · exact le_refl s

lemma supertrendStopClamp_ge_short (st : Option SupertrendResult) (s : ℚ)
    (h : nonnegSupertrendB st = true) :
    s ≤ supertrendStopClamp st Direction.SHORT s := by
  cases st with
  | none => exact le_refl s
  | some stv =>
    cases hv : stv.value with
    | none => simp [supertrendStopClamp, hv]
    | some v =>
      have hnn : (0 : ℚ) ≤ v := nonnegSupertrendB_value stv v h hv
      simp only [supertrendStopClamp, hv]
      split_ifs with hc
      · nlinarith [hc.2.2]
      · exact le_refl s

lemma pivotStopClamp_le_long (sr : Option SupportResistance) (e s : ℚ) :
    pivotStopClamp sr Direction.LONG e s ≤ s := by
  simp only [pivotStopClamp]
  cases hf : firstSupportBelow sr e with
  | none => exact le_refl s
  | some ns =>
    simp only []
    split_ifs with hc
    · exact le_of_lt hc.2
    · exact le_refl s

lemma pivotStopClamp_ge_short (sr : Option SupportResistance) (e s : ℚ) :
    s ≤ pivotStopClamp sr Direction.SHORT e s := by
  simp only [pivotStopClamp]
  cases hf : firstResistanceAbove sr e with
  | none => exact le_refl s
  | some nr =>
    simp only []
    split_ifs with hc
    · exact le_of_lt hc.2
    · exact le_refl s

lemma emaStopClamp_le_long (ema : Option ℚ) (s : ℚ) :
    emaStopClamp ema Direction.LONG s ≤ s := by
  cases ema with
  | none => exact le_refl s
  | some e21 =>
    simp only [emaStopClamp]
    split_ifs with hc
    · exact le_of_lt hc.2
    · exact le_refl s

lemma emaStopClamp_ge_short (ema : Option ℚ) (s : ℚ) :
    s ≤ emaStopClamp ema Direction.SHORT s := by
  cases ema with
  | none => exact le_refl s
  | some e21 =>
    simp only [emaStopClamp]
    split_ifs with hc
    · exact le_of_lt hc.2
    · exact le_refl s

lemma calculateStopLoss_le_long (e : ℚ) (c : Confidence) (ind : Indicators)
    (atr : ℚ) (sr : Option SupportResistance)
    (h : nonnegSupertrendB ind.trend.supertrend = true) :
    calculateStopLoss e Direction.LONG c ind atr sr ≤ e - atr * stopLossMultiplier c := by
  have h1 := supertrendStopClamp_le_long ind.trend.supertrend
    (e - atr * stopLossMultiplier c) h
  have h2 := pivotStopClamp_le_long sr e
    (supertrendStopClamp ind.trend.supertrend Direction.LONG (e - atr * stopLossMultiplier c))
  have h3 := emaStopClamp_le_long ind.trend.ema21
    (pivotStopClamp sr Direction.LONG e
      (supertrendStopClamp ind.trend.supertrend Direction.LONG (e - atr * stopLossMultiplier c)))
  calc calculateStopLoss e Direction.LONG c ind atr sr
      = emaStopClamp ind.trend.ema21 Direction.LONG
          (pivotStopClamp sr Direction.LONG e
            (supertrendStopClamp ind.trend.supertrend Direction.LONG
              (e - atr * stopLossMultiplier c))) := rfl
    _ ≤ e - atr * stopLossMultiplier c := le_trans h3 (le_trans h2 h1)

lemma calculateStopLoss_ge_short (e : ℚ) (c : Confidence) (ind : Indicators)
    (atr : ℚ) (sr : Option SupportResistance)
    (h : nonnegSupertrendB ind.trend.supertrend = true) :
    e + atr * stopLossMultiplier c ≤ calculateStopLoss e Direction.SHORT c ind atr sr := by
  have h1 := supertrendStopClamp_ge_short ind.trend.supertrend
    (e + atr * stopLossMultiplier c) h
  have h2 := pivotStopClamp_ge_short sr e
    (supertrendStopClamp ind.trend.supertrend Direction.SHORT (e + atr * stopLossMultiplier c))
  have h3 := emaStopClamp_ge_short ind.trend.ema21
    (pivotStopClamp sr Direction.SHORT e
      (supertrendStopClamp ind.trend.supertrend Direction.SHORT (e + atr * stopLossMultiplier c)))
  calc e + atr * stopLossMultiplier c
      ≤ emaStopClamp ind.trend.ema21 Direction.SHORT
          (pivotStopClamp sr Direction.SHORT e
            (supertrendStopClamp ind.trend.supertrend Direction.SHORT
              (e + atr * stopLossMultiplier c))) := le_trans (le_trans h1 h2) h3
    _ = calculateStopLoss e Direction.SHORT c ind atr sr := rfl

lemma resistanceTPClamp_fst_le (sr : Option SupportResistance) (e t1 t2 : ℚ) :
    (resistanceTPClamp sr e t1 t2).1 ≤ t1 := by
  simp only [resistanceTPClamp]
  cases hf : firstResistanceAbove sr e with
  | none => exact le_refl t1
  | some r =>
    simp only []
    split_ifs with hc
    · exact le_of_lt hc
    · exact le_refl t1

lemma resistanceTPClamp_snd_le (sr : Option SupportResistance) (e t1 t2 : ℚ) :
    (resistanceTPClamp sr e t1 t2).2 ≤ t2 := by
  simp only [resistanceTPClamp]
  cases hf : firstResistanceAbove sr e with
  | none => exact le_refl t2
  | some r =>
    simp only []
    split_ifs with hc
    · exact le_of_lt hc.1
    · exact le_refl t2

lemma supportTPClamp_fst_ge (sr : Option SupportResistance) (e t1 t2 : ℚ) :
    t1 ≤ (supportTPClamp sr e t1 t2).1 := by
  simp only [supportTPClamp]
  cases hf : firstSupportBelow sr e with
  | none => exact le_refl t1
  | some s =>
    simp only []
    split_ifs with hc
    · exact le_of_lt hc
    · exact le_refl t1

lemma supportTPClamp_snd_ge (sr : Option SupportResistance) (e t1 t2 : ℚ) :
    t2 ≤ (supportTPClamp sr e t1 t2).2 := by
  simp only [supportTPClamp]
  cases hf : firstSupportBelow sr e with
  | none => exact le_refl t2
  | some s =>
    simp only []
    split_ifs with hc
    · exact le_of_lt hc.1
    · exact le_refl t2

lemma upperBandTPClamp_le (st : Option SupertrendResult) (tp2 : ℚ)
    (h : nonnegSupertrendB st = true) :
    upperBandTPClamp st tp2 ≤ tp2 := by
  cases st with
  | none => exact le_refl tp2
  | some stv =>
    cases hu : stv.upperBand with
    | none => simp [upperBandTPClamp, hu]
    | some ub =>
      have hnn : (0 : ℚ) ≤ ub := nonnegSupertrendB_upper stv ub h hu
      simp only [upperBandTPClamp, hu]
      split_ifs with hc
      · nlinarith [hc.2]
      · exact le_refl tp2

lemma lowerBandTPClamp_ge (st : Option SupertrendResult) (tp2 : ℚ)
    (h : nonnegSupertrendB st = true) :
    tp2 ≤ lowerBandTPClamp st tp2 := by
  cases st with
  | none => exact le_refl tp2
  | some stv =>
    cases hu : stv.lowerBand with
    | none => simp [lowerBandTPClamp, hu]
    | some lb =>
      have hnn : (0 : ℚ) ≤ lb := nonnegSupertrendB_lower stv lb h hu
      simp only [lowerBandTPClamp, hu]
      split_ifs with hc
      · nlinarith [hc.2]
      · exact le_refl tp2

lemma firstResistanceAbove_gt (sr : Option SupportResistance) (e r : ℚ)
    (h : firstResistanceAbove sr e = some r) : e < r := by
  cases sr with
  | none => simp [firstResistanceAbove] at h
  | some srv =>
    simp only [firstResistanceAbove] at h
    have h2 := List.find?_some h
    simp only [] at h2
    by_contra hb
    rw [if_neg hb] at h2
    exact absurd h2 (by simp)

lemma firstSupportBelow_lt (sr : Option SupportResistance) (e s : ℚ)
    (h : firstSupportBelow sr e = some s) : s < e := by
  cases sr with
  | none => simp [firstSupportBelow] at h
  | some srv =>
    simp only [firstSupportBelow] at h
    have h2 := List.find?_some h
    simp only [] at h2
    by_contra hb
    rw [if_neg hb] at h2
    exact absurd h2 (by simp)

lemma resistanceTPClamp_fst_cases (sr : Option SupportResistance) (e t1 t2 : ℚ) :
    (resistanceTPClamp sr e t1 t2).1 = t1 ∨
    (∃ r, firstResistanceAbove sr e = some r ∧ e < r ∧ r * 0.995 < t1 ∧
      (resistanceTPClamp sr e t1 t2).1 = r * 0.995) := by
  simp only [resistanceTPClamp]
  cases hf : firstResistanceAbove sr e with
  | none => exact Or.inl rfl
  | some r =>
    simp only []
    split_ifs with hc
    · exact Or.inr ⟨r, rfl, firstResistanceAbove_gt sr e r hf, hc, rfl⟩
    · exact Or.inl rfl

lemma supportTPClamp_fst_cases (sr : Option SupportResistance) (e t1 t2 : ℚ) :
    (supportTPClamp sr e t1 t2).1 = t1 ∨
    (∃ s, firstSupportBelow sr e = some s ∧ s < e ∧ t1 < s * 1.005 ∧
      (supportTPClamp sr e t1 t2).1 = s * 1.005) := by
  simp only [supportTPClamp]
  cases hf : firstSupportBelow sr e with
  | none => exact Or.inl rfl
  | some s =>
    simp only []
    split_ifs with hc
    · exact Or.inr ⟨s, rfl, firstSupportBelow_lt sr e s hf, hc, rfl⟩
    · exact Or.inl rfl

lemma validate_warnings_eq (e s : ℚ) (tps : TakeProfits) (pi : PositionInfo) :
    (validateRiskParameters e s tps pi).warnings =
      (if |e - s| / e * 100 < 0.5 then [RiskWarning.tightStop] else []) ++
      (if |e - s| / e * 100 > 5 then [RiskWarning.wideStop] else []) ++
      (if |tps.tp1 - e| / |e - s| < 1.5 then [RiskWarning.poorRiskReward] else []) ++
      (if pi.leverage > 20 then [RiskWarning.highLeverage] else []) ++
      (if pi.leverage > 1 ∧ calculateLiquidationPrice e pi.leverage .LONG ≠ 0 ∧
          |e - calculateLiquidationPrice e pi.leverage .LONG| / e < 0.1
        then [RiskWarning.liquidationClose] else []) := by
  simp only [validateRiskParameters, calculateRiskReward, List.map_cons, List.headD_cons]

lemma cond_singleton_nil (c : Prop) [Decidable c] (b : RiskWarning)
    (h : (if c then [b] else []) = []) : ¬c := by
  intro hc
  rw [if_pos hc] at h
  simp at h

lemma validate_warnings_nil_facts (e s : ℚ) (tps : TakeProfits) (pi : PositionInfo)
    (h : (validateRiskParameters e s tps pi).warnings = []) :
    ¬(|e - s| / e * 100 < 0.5) ∧ ¬(|tps.tp1 - e| / |e - s| < 1.5) := by
  rw [validate_warnings_eq] at h
  simp only [List.append_eq_nil] at h
  exact ⟨cond_singleton_nil _ _ h.1.1.1.1, cond_singleton_nil _ _ h.1.1.2⟩

/-! Claim theorems. -/

/-- C9: the claim says the Supertrend bands roll toward price and the
direction flips when the close crosses a band.  In the source the band
variables are never initialized: every comparison against them is a
comparison with `undefined`, hence false, so the bands and the supertrend
value stay `undefined` and the direction stays `1` on every input — the
loop can never flip.  This theorem establishes that degenerate shape for
all inputs and evaluates it on a 20-candle window. -/
theorem supertrend_bands_never_initialized :
    (∀ (ohlcv : List Candle) (period : ℕ) (multiplier : ℚ),
      calculateSupertrend ohlcv period multiplier = none ∨
      calculateSupertrend ohlcv period multiplier =
        some { value := none, trend := 1, upperBand := none, lowerBand := none }) ∧
    calculateSupertrend candlesC9 10 3 =
      some { value := none, trend := 1, upperBand := none, lowerBand := none } := by
  refine ⟨calculateSupertrend_shape, ?_⟩
  rcases calculateSupertrend_shape candlesC9 10 3 with h | h
  · exfalso
    rw [calculateSupertrend] at h
    simp [candlesC9, calculateATRArray, trueRangesOf] at h
  · exact h

/-- C8 (amended): the trade id is derived from the symbol (first slash
removed), the direction and the exact millisecond timestamp, truncated to
32 characters — not from a minute bucket.  Re-registering a signal with the
identical timestamp is idempotent because the registry insert overwrites
the same key. -/
theorem trade_id_ms_idempotent :
    (∀ (st : MonitorState) (sd : SignalData),
      addTrade true (addTrade true st sd).1 sd = addTrade true st sd) ∧
    (∀ sd1 sd2 : SignalData, sd1.symbol = sd2.symbol → sd1.direction = sd2.direction →
      sd1.timestampMs = sd2.timestampMs → generateTradeId sd1 = generateTradeId sd2) := by
  constructor
  · intro st sd
    simp [addTrade, mapSet_mapSet]
  · intro sd1 sd2 h1 h2 h3
    simp [generateTradeId, h1, h2, h3]

/-- C8 (counterexample): two registrations of the same symbol and direction
whose timestamps fall in the same minute bucket get distinct trade ids, and
registering both leaves two distinct entries in the registry — re-registration
within the same minute is not idempotent. -/
theorem trade_id_minute_bucket_cex :
    minuteBucketOf sdC8a.timestampMs = minuteBucketOf sdC8b.timestampMs ∧
    generateTradeId sdC8a ≠ generateTradeId sdC8b ∧
    (addTrade true (addTrade true ⟨[], []⟩ sdC8a).1 sdC8b).1.activeTrades.length = 2 := by
  refine ⟨rfl, ?_, ?_⟩
  · decide
  · rfl

/-- C7 (amended): removing an ACTIVE trade archives it under completion
reason MANUAL_REMOVAL and deletes it from the active registry, but the
archived copy keeps its previous `status` field (still ACTIVE); once
removed, the id is unknown to every later monitor operation, so nothing
ever mutates the archived trade again. -/
theorem manual_removal_archives (st : MonitorState) (tid : String) (t : Trade) (p : ℚ)
    (hl : mapLookup tid st.activeTrades = some t)
    (hid : t.id = tid)
    (hs : t.status = TradeStatus.ACTIVE) :
    (removeTrade st tid CompletionReason.MANUAL_REMOVAL).2 = true ∧
    mapLookup tid (removeTrade st tid CompletionReason.MANUAL_REMOVAL).1.activeTrades = none ∧
    (removeTrade st tid CompletionReason.MANUAL_REMOVAL).1.completedTrades.head? =
      some { trade := t, completionReason := CompletionReason.MANUAL_REMOVAL } ∧
    t.status = TradeStatus.ACTIVE ∧
    (removeTrade (removeTrade st tid CompletionReason.MANUAL_REMOVAL).1 tid
      CompletionReason.MANUAL_REMOVAL).2 = false ∧
    monitorCheckTakeProfits (removeTrade st tid CompletionReason.MANUAL_REMOVAL).1 tid p =
      (removeTrade st tid CompletionReason.MANUAL_REMOVAL).1 := by
  have hdel : mapLookup tid (mapDelete t.id st.activeTrades) = none := by
    rw [hid]; exact mapLookup_delete tid st.activeTrades
  refine ⟨?_, ?_, ?_, hs, ?_, ?_⟩
  · simp [removeTrade, hl]
  · simp [removeTrade, hl, completeTrade, hdel]
  · simp [removeTrade, hl, completeTrade, archive_head]
  · simp [removeTrade, hl, completeTrade, hdel]
  · simp [monitorCheckTakeProfits, removeTrade, hl, completeTrade, hdel]

/-- C7 (witness): the amended behaviour evaluated on a concrete one-trade
registry. -/
theorem manual_removal_archives_witness :
    (removeTrade stMonC7 "T7" CompletionReason.MANUAL_REMOVAL).2 = true ∧
    mapLookup "T7" (removeTrade stMonC7 "T7" CompletionReason.MANUAL_REMOVAL).1.activeTrades = none ∧
    (removeTrade stMonC7 "T7" CompletionReason.MANUAL_REMOVAL).1.completedTrades.head? =
      some { trade := trC7, completionReason := CompletionReason.MANUAL_REMOVAL } ∧
    trC7.status = TradeStatus.ACTIVE ∧
    (removeTrade (removeTrade stMonC7 "T7" CompletionReason.MANUAL_REMOVAL).1 "T7"
      CompletionReason.MANUAL_REMOVAL).2 = false ∧
    monitorCheckTakeProfits (removeTrade stMonC7 "T7" CompletionReason.MANUAL_REMOVAL).1 "T7" 50 =
      (removeTrade stMonC7 "T7" CompletionReason.MANUAL_REMOVAL).1 :=
  manual_removal_archives stMonC7 "T7" trC7 50 rfl rfl rfl

/-- C7 (counterexample): the claim says the removed trade's recorded status
is MANUAL_REMOVAL; in the archive produced by the source the status field
is still ACTIVE (only the completion reason says MANUAL_REMOVAL). -/
theorem manual_removal_status_cex :
    ((removeTrade stMonC7 "T7" CompletionReason.MANUAL_REMOVAL).1.completedTrades.head?.map
      fun a => a.trade.status) = some TradeStatus.ACTIVE ∧
    TradeStatus.ACTIVE ≠ TradeStatus.MANUAL_REMOVAL := by
  exact ⟨rfl, by decide⟩

/-- C6: TP flags are set in strict ladder order (tp2 only after tp1, tp3
only after tp2, checked in one pass that may cascade), and the poll that
newly sets tp3 marks the trade COMPLETED, removes it from the active
registry and archives it under reason TP3_HIT; a freshly registered trade
starts with an ordered (all-false) flag set. -/
theorem tp_ladder_order (st : MonitorState) (tid : String) (p : ℚ) (t : Trade)
    (hl : mapLookup tid st.activeTrades = some t)
    (hid : t.id = tid)
    (hf : t.entryFilled = true)
    (ho : OrderedTp t.tpHit) :
    OrderedTp (checkTakeProfitLevels t p).1.tpHit ∧
    (∀ sd : SignalData, OrderedTp (newTrade sd).tpHit) ∧
    (t.tpHit.tp3 = false → (checkTakeProfitLevels t p).1.tpHit.tp3 = true →
      (checkTakeProfitLevels t p).1.status = TradeStatus.COMPLETED ∧
      (checkTakeProfitLevels t p).2 = true ∧
      mapLookup tid (monitorCheckTakeProfits st tid p).activeTrades = none ∧
      (monitorCheckTakeProfits st tid p).completedTrades.head? =
        some { trade := (checkTakeProfitLevels t p).1,
               completionReason := CompletionReason.TP3_HIT }) := by
  obtain ⟨ho12, ho23⟩ := ho
  have hdel : mapLookup tid (mapDelete (checkTakeProfitLevels t p).1.id
      (mapSet tid (checkTakeProfitLevels t p).1 st.activeTrades)) = none := by
    rw [checkTakeProfitLevels_id, hid]
    exact mapLookup_delete tid _
  refine ⟨?_, ?_, ?_⟩
  · simp only [checkTakeProfitLevels]
    split_ifs <;> simp_all [OrderedTp]
  · intro sd
    simp [OrderedTp, newTrade]
  · intro h3pre h3post
    have hdone : (checkTakeProfitLevels t p).2 = true := by
      simp only [checkTakeProfitLevels] at h3post ⊢
      split_ifs at h3post ⊢ <;> simp_all
    have hstatus : (checkTakeProfitLevels t p).1.status = TradeStatus.COMPLETED := by
      simp only [checkTakeProfitLevels] at h3post ⊢
      split_ifs at h3post ⊢ <;> simp_all
    refine ⟨hstatus, hdone, ?_, ?_⟩
    · simp [monitorCheckTakeProfits, hl, hf, hdone, completeTrade, hdel]
    · simp [monitorCheckTakeProfits, hl, hf, hdone, completeTrade, archive_head]

/-- C6 (witness): a filled LONG trade with all flags false polled at a
price beyond TP3 cascades through the ladder, completes and is archived. -/
theorem tp_ladder_order_witness :
    OrderedTp (checkTakeProfitLevels trC6 103).1.tpHit ∧
    (∀ sd : SignalData, OrderedTp (newTrade sd).tpHit) ∧
    (trC6.tpHit.tp3 = false → (checkTakeProfitLevels trC6 103).1.tpHit.tp3 = true →
      (checkTakeProfitLevels trC6 103).1.status = TradeStatus.COMPLETED ∧
      (checkTakeProfitLevels trC6 103).2 = true ∧
      mapLookup "T6" (monitorCheckTakeProfits stMonC6 "T6" 103).activeTrades = none ∧
      (monitorCheckTakeProfits stMonC6 "T6" 103).completedTrades.head? =
        some { trade := (checkTakeProfitLevels trC6 103).1,
               completionReason := CompletionReason.TP3_HIT }) :=
  tp_ladder_order stMonC6 "T6" 103 trC6 rfl rfl rfl (by simp [OrderedTp, trC6])

/-- C3 (amended): a category whose underlying indicators are unavailable
contributes zero to both the long-score and short-score accumulators, but
its weight is NOT excluded from the total-weight denominator: every
category weight is added unconditionally, so the denominator is always
100 and absence dilutes the strengths instead. -/
theorem scoring_weight_always_counted :
    ∀ (price : ℚ) (ind : Indicators),
      totalWeightOf price ind = 100 ∧
      (trendAvailable ind.trend = false →
        (analyzeTrend price ind.trend).longScore = 0 ∧
        (analyzeTrend price ind.trend).shortScore = 0) ∧
      (momentumAvailable ind.momentum = false →
        (analyzeMomentum ind.momentum).longScore = 0 ∧
        (analyzeMomentum ind.momentum).shortScore = 0) ∧
      (volumeAvailable ind.volume = false →
        (analyzeVolume price ind.volume).longScore = 0 ∧
        (analyzeVolume price ind.volume).shortScore = 0) ∧
      (futuresAvailable ind.futures = false →
        (analyzeFuturesData ind.futures).longScore = 0 ∧
        (analyzeFuturesData ind.futures).shortScore = 0) := by
  intro price ind
  refine ⟨?_, analyzeTrend_absent price ind.trend, analyzeMomentum_absent ind.momentum,
    analyzeVolume_absent price ind.volume, analyzeFuturesData_absent ind.futures⟩
  show (analyzeTrend price ind.trend).weight + (analyzeMomentum ind.momentum).weight
      + (analyzeVolume price ind.volume).weight
      + (analyzeFuturesData ind.futures).weight = 100
  norm_num [analyzeTrend, analyzeMomentum, analyzeVolume, analyzeFuturesData]

/-- C3 (counterexample): with every momentum indicator absent, the momentum
category scores zero but its weight 25 still enters the denominator: the
implemented total weight is 100 even though the specification's
availability-excluding denominator would be 0 on this input. -/
theorem momentum_weight_not_excluded_cex :
    momentumAvailable indAbsent.momentum = false ∧
    (analyzeMomentum indAbsent.momentum).longScore = 0 ∧
    (analyzeMomentum indAbsent.momentum).shortScore = 0 ∧
    (analyzeMomentum indAbsent.momentum).weight = 25 ∧
    totalWeightOf 100 indAbsent = 100 ∧
    totalWeightSpecExcluding indAbsent = 0 := by
  refine ⟨rfl, ?_, ?_, rfl, ?_, ?_⟩
  · norm_num [analyzeMomentum, indAbsent]
  · norm_num [analyzeMomentum, indAbsent]
  · norm_num [totalWeightOf, analyzeTrend, analyzeMomentum, analyzeVolume,
      analyzeFuturesData, indAbsent]
  · norm_num [totalWeightSpecExcluding, trendAvailable, momentumAvailable,
      volumeAvailable, futuresAvailable, indAbsent]

/-- C4: the scorer's decision rule: LONG is emitted as soon as the long
strength reaches the minimum confidence (SHORT is not evaluated then);
otherwise SHORT is emitted when its strength reaches the minimum; otherwise
nothing.  Every emitted signal has strength at least the minimum and is
HIGH exactly when its strength reaches the high-confidence bound; the rule
fires concretely on an all-bullish indicator set. -/
theorem signal_decision_rule :
    (∀ (cfg : SignalConfig) (price : ℚ) (ind : Indicators),
      longStrengthOf price ind ≥ cfg.minConfidence →
        generateFuturesSignal cfg price ind =
          some ⟨.LONG, longStrengthOf price ind,
            if longStrengthOf price ind ≥ cfg.highConfidence then .HIGH else .MEDIUM⟩) ∧
    (∀ (cfg : SignalConfig) (price : ℚ) (ind : Indicators),
      ¬(longStrengthOf price ind ≥ cfg.minConfidence) →
      shortStrengthOf price ind ≥ cfg.minConfidence →
        generateFuturesSignal cfg price ind =
          some ⟨.SHORT, shortStrengthOf price ind,
            if shortStrengthOf price ind ≥ cfg.highConfidence then .HIGH else .MEDIUM⟩) ∧
    (∀ (cfg : SignalConfig) (price : ℚ) (ind : Indicators),
      ¬(longStrengthOf price ind ≥ cfg.minConfidence) →
      ¬(shortStrengthOf price ind ≥ cfg.minConfidence) →
        generateFuturesSignal cfg price ind = none) ∧
    (∀ (cfg : SignalConfig) (price : ℚ) (ind : Indicators) (s : Signal),
      generateFuturesSignal cfg price ind = some s →
        s.strength ≥ cfg.minConfidence ∧
        (s.confidence = .HIGH ↔ s.strength ≥ cfg.highConfidence) ∧
        (s.direction = .SHORT → ¬(longStrengthOf price ind ≥ cfg.minConfidence))) ∧
    generateFuturesSignal defaultSignalConfig 100 indC4 =
      some ⟨.LONG, 100, .HIGH⟩ := by
  have P1 : ∀ (cfg : SignalConfig) (price : ℚ) (ind : Indicators),
      longStrengthOf price ind ≥ cfg.minConfidence →
        generateFuturesSignal cfg price ind =
          some ⟨.LONG, longStrengthOf price ind,
            if longStrengthOf price ind ≥ cfg.highConfidence then .HIGH else .MEDIUM⟩ :=
    fun cfg price ind h => by simp [generateFuturesSignal, h]
  have P2 : ∀ (cfg : SignalConfig) (price : ℚ) (ind : Indicators),
      ¬(longStrengthOf price ind ≥ cfg.minConfidence) →
      shortStrengthOf price ind ≥ cfg.minConfidence →
        generateFuturesSignal cfg price ind =
          some ⟨.SHORT, shortStrengthOf price ind,
            if shortStrengthOf price ind ≥ cfg.highConfidence then .HIGH else .MEDIUM⟩ :=
    fun cfg price ind h1 h2 => by simp [generateFuturesSignal, h1, h2]
  have P3 : ∀ (cfg : SignalConfig) (price : ℚ) (ind : Indicators),
      ¬(longStrengthOf price ind ≥ cfg.minConfidence) →
      ¬(shortStrengthOf price ind ≥ cfg.minConfidence) →
        generateFuturesSignal cfg price ind = none :=
    fun cfg price ind h1 h2 => by simp [generateFuturesSignal, h1, h2]
  refine ⟨P1, P2, P3, ?_, ?_⟩
  · intro cfg price ind s h
    by_cases h1 : longStrengthOf price ind ≥ cfg.minConfidence
    · rw [P1 cfg price ind h1] at h
      have hs := (Option.some.injEq _ _).mp h
      subst hs
      refine ⟨h1, ?_, by simp⟩
      by_cases hc : longStrengthOf price ind ≥ cfg.highConfidence
      · simp [hc]
      · simp [hc]
    · by_cases h2 : shortStrengthOf price ind ≥ cfg.minConfidence
      · rw [P2 cfg price ind h1 h2] at h
        have hs := (Option.some.injEq _ _).mp h
        subst hs
        refine ⟨h2, ?_, fun _ => h1⟩
        by_cases hc : shortStrengthOf price ind ≥ cfg.highConfidence
        · simp [hc]
        · simp [hc]
      · rw [P3 cfg price ind h1 h2] at h
        exact absurd h (by simp)
  · norm_num [generateFuturesSignal, longStrengthOf, shortStrengthOf, longScoreOf,
      shortScoreOf, totalWeightOf, analyzeTrend, analyzeMomentum, analyzeVolume,
      analyzeFuturesData, getEMAAlignment, jsGtO, jsLtO, indC4, defaultSignalConfig]

/-- C10 (amended): each of the five warnings is emitted exactly under its
documented condition (stop distance below 0.5% or above 5% of entry, first
risk-reward ratio below 1.5, leverage above 20, liquidation distance below
10% of entry behind the leverage-above-1 guard), but warnings always cause
rejection: validity is by definition emptiness of the warning list, and
every accepted signal reaching the monitor has an empty warning list. -/
theorem validation_warnings_amended :
    (∀ (e s : ℚ) (tps : TakeProfits) (pi : PositionInfo),
      ((validateRiskParameters e s tps pi).isValid = true ↔
        (validateRiskParameters e s tps pi).warnings = []) ∧
      (RiskWarning.tightStop ∈ (validateRiskParameters e s tps pi).warnings ↔
        |e - s| / e * 100 < 0.5) ∧
      (RiskWarning.wideStop ∈ (validateRiskParameters e s tps pi).warnings ↔
        |e - s| / e * 100 > 5) ∧
      (RiskWarning.poorRiskReward ∈ (validateRiskParameters e s tps pi).warnings ↔
        |tps.tp1 - e| / |e - s| < 1.5) ∧
      (RiskWarning.highLeverage ∈ (validateRiskParameters e s tps pi).warnings ↔
        pi.leverage > 20) ∧
      (RiskWarning.liquidationClose ∈ (validateRiskParameters e s tps pi).warnings ↔
        (pi.leverage > 1 ∧ calculateLiquidationPrice e pi.leverage .LONG ≠ 0 ∧
          |e - calculateLiquidationPrice e pi.leverage .LONG| / e < 0.1))) ∧
    (∀ (cfg : RMConfig) (p : ℚ) (d : Direction) (c : Confidence) (ind : Indicators)
      (rp : RiskParameters),
      analyzeTokenAccept cfg p d c ind = some rp →
        (validateRiskParameters rp.entryPrice rp.stopLoss rp.takeProfits
          rp.positionInfo).warnings = []) := by
  constructor
  · intro e s tps pi
    have hmem : ∀ (a b : RiskWarning) (c : Prop) (inst : Decidable c),
        (a ∈ (if c then [b] else [])) ↔ (c ∧ a = b) := by
      intro a b c inst
      split_ifs with h <;> simp [h]
    refine ⟨?_, ?_, ?_, ?_, ?_, ?_⟩
    · rw [validate_isValid]
      simp [List.isEmpty_iff]
    all_goals
      simp only [validateRiskParameters, calculateRiskReward, List.map_cons,
        List.headD_cons, List.mem_append, hmem]
      simp
  · exact accept_warnings_nil

lemma long_core (e s a : ℚ) (c : Confidence) (ind : Indicators)
    (sr : Option SupportResistance) (tps : TakeProfits)
    (hpos : 0 < e) (hatr : 0 ≤ a)
    (hnn : nonnegSupertrendB ind.trend.supertrend = true)
    (hs : s = calculateStopLoss e Direction.LONG c ind a sr)
    (htps : tps = calculateTakeProfitLevels e Direction.LONG c ind a sr)
    (h05 : ¬(|e - s| / e * 100 < 0.5))
    (hrr15 : ¬(|tps.tp1 - e| / |e - s| < 1.5)) :
    s < e ∧ e < tps.tp1 ∧ tps.tp1 < tps.tp3 ∧ tps.tp2 < tps.tp3 := by
  subst hs htps
  have hml : 0 < stopLossMultiplier c := by cases c <;> norm_num [stopLossMultiplier]
  have hm0 : 0 < (takeProfitMultipliers c).1 := by
    cases c <;> norm_num [takeProfitMultipliers]
  have hm02 : (takeProfitMultipliers c).1 < (takeProfitMultipliers c).2.2 := by
    cases c <;> norm_num [takeProfitMultipliers]
  have hm12 : (takeProfitMultipliers c).2.1 < (takeProfitMultipliers c).2.2 := by
    cases c <;> norm_num [takeProfitMultipliers]
  have ht1 : (calculateTakeProfitLevels e Direction.LONG c ind a sr).tp1 =
      (resistanceTPClamp sr e (e + a * (takeProfitMultipliers c).1)
        (e + a * (takeProfitMultipliers c).2.1)).1 := rfl
  have ht2 : (calculateTakeProfitLevels e Direction.LONG c ind a sr).tp2 =
      upperBandTPClamp ind.trend.supertrend
        (resistanceTPClamp sr e (e + a * (takeProfitMultipliers c).1)
          (e + a * (takeProfitMultipliers c).2.1)).2 := rfl
  have ht3 : (calculateTakeProfitLevels e Direction.LONG c ind a sr).tp3 =
      e + a * (takeProfitMultipliers c).2.2 := rfl
  have h1 : (0.5 : ℚ) ≤ |e - (calculateStopLoss e Direction.LONG c ind a sr)| / e * 100 := not_lt.mp h05
  have hrisklb : e / 200 ≤ |e - (calculateStopLoss e Direction.LONG c ind a sr)| := by
    rw [div_mul_eq_mul_div, le_div_iff hpos] at h1
    linarith
  have habspos : (0 : ℚ) < |e - (calculateStopLoss e Direction.LONG c ind a sr)| := lt_of_lt_of_le (by linarith) hrisklb
  have hreward : 1.5 * |e - (calculateStopLoss e Direction.LONG c ind a sr)| ≤ |(calculateTakeProfitLevels e Direction.LONG c ind a sr).tp1 - e| := by
    have h2 : (1.5 : ℚ) ≤ |(calculateTakeProfitLevels e Direction.LONG c ind a sr).tp1 - e| / |e - (calculateStopLoss e Direction.LONG c ind a sr)| := not_lt.mp hrr15
    rw [le_div_iff habspos] at h2
    linarith
  have hsle : calculateStopLoss e Direction.LONG c ind a sr ≤
      e - a * stopLossMultiplier c :=
    calculateStopLoss_le_long e c ind a sr hnn
  have hse : calculateStopLoss e Direction.LONG c ind a sr ≤ e := by
    nlinarith [mul_nonneg hatr hml.le]
  have habs_es : |e - calculateStopLoss e Direction.LONG c ind a sr| =
      e - calculateStopLoss e Direction.LONG c ind a sr :=
    abs_of_nonneg (by linarith)
  have hslt : calculateStopLoss e Direction.LONG c ind a sr < e := by
    rw [habs_es] at habspos
    linarith
  have htp1_le : (calculateTakeProfitLevels e Direction.LONG c ind a sr).tp1 ≤
      e + a * (takeProfitMultipliers c).1 := by
    rw [ht1]
    exact resistanceTPClamp_fst_le sr e _ _
  have hkey : e < (calculateTakeProfitLevels e Direction.LONG c ind a sr).tp1 ∧ 0 < a := by
    rcases resistanceTPClamp_fst_cases sr e (e + a * (takeProfitMultipliers c).1)
        (e + a * (takeProfitMultipliers c).2.1) with hcase | ⟨r, -, hre, hrlt, hceq⟩
    · have htp1 : (calculateTakeProfitLevels e Direction.LONG c ind a sr).tp1 =
          e + a * (takeProfitMultipliers c).1 := by rw [ht1, hcase]
      have ham : 0 ≤ a * (takeProfitMultipliers c).1 := mul_nonneg hatr hm0.le
      have habs_tp : |(calculateTakeProfitLevels e Direction.LONG c ind a sr).tp1 - e| =
          a * (takeProfitMultipliers c).1 := by
        rw [htp1, show e + a * (takeProfitMultipliers c).1 - e
          = a * (takeProfitMultipliers c).1 by ring, abs_of_nonneg ham]
      have hampos : 0 < a * (takeProfitMultipliers c).1 := by
        rcases eq_or_lt_of_le ham with heq | hlt
        · exfalso
          rw [habs_tp, ← heq] at hreward
          linarith
        · exact hlt
      refine ⟨by rw [htp1]; linarith, ?_⟩
      by_contra hb
      push_neg at hb
      have hneg : a * (takeProfitMultipliers c).1 ≤ 0 * (takeProfitMultipliers c).1 :=
        mul_le_mul_of_nonneg_right hb hm0.le
      simp at hneg
      linarith
    · have htp1 : (calculateTakeProfitLevels e Direction.LONG c ind a sr).tp1 =
          r * 0.995 := by rw [ht1, hceq]
      have hetp1 : e < (calculateTakeProfitLevels e Direction.LONG c ind a sr).tp1 := by
        by_contra hb
        push_neg at hb
        have habs_tp : |(calculateTakeProfitLevels e Direction.LONG c ind a sr).tp1 - e| =
            e - (calculateTakeProfitLevels e Direction.LONG c ind a sr).tp1 := by
          rw [abs_of_nonpos (by linarith)]
          ring
        rw [habs_tp, htp1] at hreward
        linarith
      refine ⟨hetp1, ?_⟩
      by_contra hb
      push_neg at hb
      have hneg : a * (takeProfitMultipliers c).1 ≤ 0 * (takeProfitMultipliers c).1 :=
        mul_le_mul_of_nonneg_right hb hm0.le
      simp at hneg
      rw [htp1] at hetp1
      linarith
  obtain ⟨hetp1, hapos⟩ := hkey
  have hfac1 : a * (takeProfitMultipliers c).1 < a * (takeProfitMultipliers c).2.2 :=
    (mul_lt_mul_left hapos).mpr hm02
  have hfac2 : a * (takeProfitMultipliers c).2.1 < a * (takeProfitMultipliers c).2.2 :=
    (mul_lt_mul_left hapos).mpr hm12
  have htp2_le : (calculateTakeProfitLevels e Direction.LONG c ind a sr).tp2 ≤
      e + a * (takeProfitMultipliers c).2.1 := by
    rw [ht2]
    exact le_trans (upperBandTPClamp_le _ _ hnn) (resistanceTPClamp_snd_le sr e _ _)
  refine ⟨hslt, hetp1, ?_, ?_⟩
  · rw [ht3]
    linarith
  · rw [ht3]
    linarith

lemma short_core (e s a : ℚ) (c : Confidence) (ind : Indicators)
    (sr : Option SupportResistance) (tps : TakeProfits)
    (hpos : 0 < e) (hatr : 0 ≤ a)
    (hnn : nonnegSupertrendB ind.trend.supertrend = true)
    (hs : s = calculateStopLoss e Direction.SHORT c ind a sr)
    (htps : tps = calculateTakeProfitLevels e Direction.SHORT c ind a sr)
    (h05 : ¬(|e - s| / e * 100 < 0.5))
    (hrr15 : ¬(|tps.tp1 - e| / |e - s| < 1.5)) :
    e < s ∧ tps.tp1 < e ∧ tps.tp3 < tps.tp1 ∧ tps.tp3 < tps.tp2 := by
  subst hs htps
  have hml : 0 < stopLossMultiplier c := by cases c <;> norm_num [stopLossMultiplier]
  have hm0 : 0 < (takeProfitMultipliers c).1 := by
    cases c <;> norm_num [takeProfitMultipliers]
  have hm02 : (takeProfitMultipliers c).1 < (takeProfitMultipliers c).2.2 := by
    cases c <;> norm_num [takeProfitMultipliers]
  have hm12 : (takeProfitMultipliers c).2.1 < (takeProfitMultipliers c).2.2 := by
    cases c <;> norm_num [takeProfitMultipliers]
  have ht1 : (calculateTakeProfitLevels e Direction.SHORT c ind a sr).tp1 =
      (supportTPClamp sr e (e - a * (takeProfitMultipliers c).1)
        (e - a * (takeProfitMultipliers c).2.1)).1 := rfl
  have ht2 : (calculateTakeProfitLevels e Direction.SHORT c ind a sr).tp2 =
      lowerBandTPClamp ind.trend.supertrend
        (supportTPClamp sr e (e - a * (takeProfitMultipliers c).1)
          (e - a * (takeProfitMultipliers c).2.1)).2 := rfl
  have ht3 : (calculateTakeProfitLevels e Direction.SHORT c ind a sr).tp3 =
      e - a * (takeProfitMultipliers c).2.2 := rfl
  have h1 : (0.5 : ℚ) ≤ |e - (calculateStopLoss e Direction.SHORT c ind a sr)| / e * 100 := not_lt.mp h05
  have hrisklb : e / 200 ≤ |e - (calculateStopLoss e Direction.SHORT c ind a sr)| := by
    rw [div_mul_eq_mul_div, le_div_iff hpos] at h1
    linarith
  have habspos : (0 : ℚ) < |e - (calculateStopLoss e Direction.SHORT c ind a sr)| := lt_of_lt_of_le (by linarith) hrisklb
  have hreward : 1.5 * |e - (calculateStopLoss e Direction.SHORT c ind a sr)| ≤ |(calculateTakeProfitLevels e Direction.SHORT c ind a sr).tp1 - e| := by
    have h2 : (1.5 : ℚ) ≤ |(calculateTakeProfitLevels e Direction.SHORT c ind a sr).tp1 - e| / |e - (calculateStopLoss e Direction.SHORT c ind a sr)| := not_lt.mp hrr15
    rw [le_div_iff habspos] at h2
    linarith
  have hsge : e + a * stopLossMultiplier c ≤
      calculateStopLoss e Direction.SHORT c ind a sr :=
    calculateStopLoss_ge_short e c ind a sr hnn
  have hse : e ≤ calculateStopLoss e Direction.SHORT c ind a sr := by
    nlinarith [mul_nonneg hatr hml.le]
  have habs_es : |e - calculateStopLoss e Direction.SHORT c ind a sr| =
      calculateStopLoss e Direction.SHORT c ind a sr - e := by
    rw [abs_of_nonpos (by linarith)]
    ring
  have hslt : e < calculateStopLoss e Direction.SHORT c ind a sr := by
    rw [habs_es] at habspos
    linarith
  have htp1_ge : e - a * (takeProfitMultipliers c).1 ≤
      (calculateTakeProfitLevels e Direction.SHORT c ind a sr).tp1 := by
    rw [ht1]
    exact supportTPClamp_fst_ge sr e _ _
  have hkey : (calculateTakeProfitLevels e Direction.SHORT c ind a sr).tp1 < e ∧ 0 < a := by
    rcases supportTPClamp_fst_cases sr e (e - a * (takeProfitMultipliers c).1)
        (e - a * (takeProfitMultipliers c).2.1) with hcase | ⟨s0, -, hs0e, hlt0, hceq⟩
    · have htp1 : (calculateTakeProfitLevels e Direction.SHORT c ind a sr).tp1 =
          e - a * (takeProfitMultipliers c).1 := by rw [ht1, hcase]
      have ham : 0 ≤ a * (takeProfitMultipliers c).1 := mul_nonneg hatr hm0.le
      have habs_tp : |(calculateTakeProfitLevels e Direction.SHORT c ind a sr).tp1 - e| =
          a * (takeProfitMultipliers c).1 := by
        rw [htp1, show e - a * (takeProfitMultipliers c).1 - e
          = -(a * (takeProfitMultipliers c).1) by ring, abs_neg, abs_of_nonneg ham]
      have hampos : 0 < a * (takeProfitMultipliers c).1 := by
        rcases eq_or_lt_of_le ham with heq | hlt
        · exfalso
          rw [habs_tp, ← heq] at hreward
          linarith
        · exact hlt
      refine ⟨by rw [htp1]; linarith, ?_⟩
      by_contra hb
      push_neg at hb
      have hneg : a * (takeProfitMultipliers c).1 ≤ 0 * (takeProfitMultipliers c).1 :=
        mul_le_mul_of_nonneg_right hb hm0.le
      simp at hneg
      linarith
    · have htp1 : (calculateTakeProfitLevels e Direction.SHORT c ind a sr).tp1 =
          s0 * 1.005 := by rw [ht1, hceq]
      have hetp1 : (calculateTakeProfitLevels e Direction.SHORT c ind a sr).tp1 < e := by
        by_contra hb
        push_neg at hb
        have habs_tp : |(calculateTakeProfitLevels e Direction.SHORT c ind a sr).tp1 - e| =
            (calculateTakeProfitLevels e Direction.SHORT c ind a sr).tp1 - e :=
          abs_of_nonneg (by linarith)
        rw [habs_tp, htp1] at hreward
        linarith
      refine ⟨hetp1, ?_⟩
      by_contra hb
      push_neg at hb
      have hneg : a * (takeProfitMultipliers c).1 ≤ 0 * (takeProfitMultipliers c).1 :=
        mul_le_mul_of_nonneg_right hb hm0.le
      simp at hneg
      rw [htp1] at hetp1
      linarith [hlt0]
  obtain ⟨hetp1, hapos⟩ := hkey
  have hfac1 : a * (takeProfitMultipliers c).1 < a * (takeProfitMultipliers c).2.2 :=
    (mul_lt_mul_left hapos).mpr hm02
  have hfac2 : a * (takeProfitMultipliers c).2.1 < a * (takeProfitMultipliers c).2.2 :=
    (mul_lt_mul_left hapos).mpr hm12
  have htp2_ge : e - a * (takeProfitMultipliers c).2.1 ≤
      (calculateTakeProfitLevels e Direction.SHORT c ind a sr).tp2 := by
    rw [ht2]
    exact le_trans (supportTPClamp_snd_ge sr e _ _) (lowerBandTPClamp_ge _ _ hnn)
  refine ⟨hslt, hetp1, ?_, ?_⟩
  · rw [ht3]
    linarith
  · rw [ht3]
    linarith

/-- C5 (amended): the stop-loss clamps can only LOOSEN the stop: each clamp
moves the stop farther from the entry (down for LONG, up for SHORT), so the
final distance |entry − stopLoss| is at least ATR × multiplier — never at
most, as the claim states. -/
theorem stop_clamps_only_loosen (entryPrice : ℚ) (d : Direction) (c : Confidence)
    (ind : Indicators) (atr : ℚ) (sr : Option SupportResistance)
    (h : nonnegSupertrendB ind.trend.supertrend = true) :
    (d = .LONG →
      calculateStopLoss entryPrice d c ind atr sr ≤
        entryPrice - atr * stopLossMultiplier c) ∧
    (d = .SHORT →
      entryPrice + atr * stopLossMultiplier c ≤
        calculateStopLoss entryPrice d c ind atr sr) ∧
    atr * stopLossMultiplier c ≤
      |entryPrice - calculateStopLoss entryPrice d c ind atr sr| := by
  cases d with
  | LONG =>
    have h1 := calculateStopLoss_le_long entryPrice c ind atr sr h
    refine ⟨fun _ => h1, fun hd => by exact absurd hd (by simp), ?_⟩
    calc atr * stopLossMultiplier c
        ≤ entryPrice - calculateStopLoss entryPrice Direction.LONG c ind atr sr := by
          linarith
      _ ≤ |entryPrice - calculateStopLoss entryPrice Direction.LONG c ind atr sr| :=
          le_abs_self _
  | SHORT =>
    have h1 := calculateStopLoss_ge_short entryPrice c ind atr sr h
    refine ⟨fun hd => by exact absurd hd (by simp), fun _ => h1, ?_⟩
    calc atr * stopLossMultiplier c
        ≤ calculateStopLoss entryPrice Direction.SHORT c ind atr sr - entryPrice := by
          linarith
      _ ≤ |entryPrice - calculateStopLoss entryPrice Direction.SHORT c ind atr sr| := by
          rw [abs_sub_comm]
          exact le_abs_self _

/-- C5 (witness): on the concrete clamped LONG input the amended bound is
attested (the Supertrend clamp pushes the stop from 98.8 down to 89.82). -/
theorem stop_clamps_only_loosen_witness :
    (Direction.LONG = Direction.LONG →
      calculateStopLoss 100 Direction.LONG Confidence.HIGH indC5 1 none ≤
        100 - 1 * stopLossMultiplier Confidence.HIGH) ∧
    (Direction.LONG = Direction.SHORT →
      100 + 1 * stopLossMultiplier Confidence.HIGH ≤
        calculateStopLoss 100 Direction.LONG Confidence.HIGH indC5 1 none) ∧
    1 * stopLossMultiplier Confidence.HIGH ≤
      |100 - calculateStopLoss 100 Direction.LONG Confidence.HIGH indC5 1 none| :=
  stop_clamps_only_loosen 100 Direction.LONG Confidence.HIGH indC5 1 none
    (by norm_num [nonnegSupertrendB, nonnegOptQ, indC5])

/-- C5 (counterexample): the claim bounds the final stop distance by the
unclamped ATR distance (|entry − stopLoss| ≤ ATR × multiplier); on this
input the Supertrend clamp moves the stop from 98.8 to 89.82, distance
10.18, far beyond ATR × 1.2 = 1.2. -/
theorem stop_clamp_exceeds_atr_distance_cex :
    calculateStopLoss 100 Direction.LONG Confidence.HIGH indC5 1 none = 89.82 ∧
    ¬(|(100 : ℚ) - calculateStopLoss 100 Direction.LONG Confidence.HIGH indC5 1 none| ≤
        1 * stopLossMultiplier Confidence.HIGH) := by
  have h : calculateStopLoss 100 Direction.LONG Confidence.HIGH indC5 1 none = 89.82 := by
    norm_num [calculateStopLoss, supertrendStopClamp, pivotStopClamp, emaStopClamp,
      firstSupportBelow, indC5, stopLossMultiplier]
  refine ⟨h, ?_⟩
  rw [h]
  norm_num [stopLossMultiplier, abs_of_nonneg]

/-- C2: risk/reward ratios are |TP − entry| / |entry − stop| and the
pipeline produces no risk parameters when the first ratio is below the
configured minimum; on the documented scenario (entry 100, ATR 2, HIGH
confidence, no clamp source present) the ladder is 104/107/111 with stop
97.6, ratio[0] = 5/3 < 2, and the default configuration rejects it. -/
theorem min_risk_reward_gate :
    (∀ (e s : ℚ) (tps : List ℚ),
      calculateRiskReward e s tps = tps.map fun tp => |tp - e| / |e - s|) ∧
    (∀ (cfg : RMConfig) (p : ℚ) (d : Direction) (c : Confidence) (ind : Indicators),
      (riskRewardsOf p d c ind).headD 0 < cfg.minRiskReward →
        calculateRiskParameters cfg p d c ind = none) ∧
    entryPriceOf 100.3 Direction.LONG Confidence.HIGH indC2 = 100 ∧
    takeProfitsOf 100.3 Direction.LONG Confidence.HIGH indC2 = ⟨104, 107, 111⟩ ∧
    stopLossOf 100.3 Direction.LONG Confidence.HIGH indC2 = 97.6 ∧
    (riskRewardsOf 100.3 Direction.LONG Confidence.HIGH indC2).headD 0 = 5 / 3 ∧
    (5 : ℚ) / 3 < defaultRMConfig.minRiskReward ∧
    calculateRiskParameters defaultRMConfig 100.3 Direction.LONG Confidence.HIGH indC2 =
      none := by
  have he : entryPriceOf 100.3 Direction.LONG Confidence.HIGH indC2 = 100 := by
    norm_num [entryPriceOf, calculateEntryPrice, indC2]
  have htp : takeProfitsOf 100.3 Direction.LONG Confidence.HIGH indC2 = ⟨104, 107, 111⟩ := by
    rw [takeProfitsOf, he]
    norm_num [calculateTakeProfitLevels, resistanceTPClamp, upperBandTPClamp,
      firstResistanceAbove, takeProfitMultipliers, indC2]
  have hs : stopLossOf 100.3 Direction.LONG Confidence.HIGH indC2 = 97.6 := by
    rw [stopLossOf, he]
    norm_num [calculateStopLoss, supertrendStopClamp, pivotStopClamp, emaStopClamp,
      firstSupportBelow, stopLossMultiplier, indC2]
  have hr : (riskRewardsOf 100.3 Direction.LONG Confidence.HIGH indC2).headD 0 = 5 / 3 := by
    rw [riskRewardsOf, he, htp, hs]
    norm_num [calculateRiskReward, abs_of_nonneg, abs_of_nonpos]
  refine ⟨fun e s tps => rfl, ?_, he, htp, hs, hr, by norm_num [defaultRMConfig], ?_⟩
  · intro cfg p d c ind h
    rw [calculateRiskParameters, if_pos h]
  · rw [calculateRiskParameters, if_pos (by rw [hr]; norm_num [defaultRMConfig])]

/-- C10 (counterexample): the claim asserts some signal with a non-empty
warning list is still accepted; in fact the acceptance test is exactly
validity, validity is exactly warning-emptiness, so the accepted-with-
warnings predicate is constantly false on all inputs. -/
theorem no_accepted_signal_with_warnings_cex :
    acceptedWithWarnings = fun _ _ _ _ _ => false := by
  funext cfg p d c ind
  unfold acceptedWithWarnings
  cases hcp : analyzeTokenAccept cfg p d c ind with
  | none => rfl
  | some rp =>
    have hw := accept_warnings_nil cfg p d c ind rp hcp
    simp [hw]

lemma entryC1 : entryPriceOf 100.15 Direction.LONG Confidence.HIGH indC1 = 100 := by
  norm_num [entryPriceOf, calculateEntryPrice, indC1, superC1]

lemma tpC1 : takeProfitsOf 100.15 Direction.LONG Confidence.HIGH indC1 =
    ⟨102, 49.5, 105.5⟩ := by
  rw [takeProfitsOf, entryC1]
  norm_num [calculateTakeProfitLevels, resistanceTPClamp, upperBandTPClamp,
    firstResistanceAbove, takeProfitMultipliers, indC1, superC1]

lemma stopC1 : stopLossOf 100.15 Direction.LONG Confidence.HIGH indC1 = 98.8 := by
  rw [stopLossOf, entryC1]
  norm_num [calculateStopLoss, supertrendStopClamp, pivotStopClamp, emaStopClamp,
    firstSupportBelow, stopLossMultiplier, indC1, superC1]

lemma rrC1 : riskRewardsOf 100.15 Direction.LONG Confidence.HIGH indC1 =
    [5/3, 505/12, 55/12] := by
  rw [riskRewardsOf, entryC1, tpC1, stopC1]
  norm_num [calculateRiskReward, abs_of_nonneg, abs_of_nonpos]

lemma piC1 : positionInfoOf cfgC1 100.15 Direction.LONG Confidence.HIGH indC1 =
    rpC1.positionInfo := by
  rw [positionInfoOf, entryC1, stopC1]
  norm_num [calculatePositionSize, cfgC1, rpC1, abs_of_nonneg]

lemma rpEqC1 : calculateRiskParameters cfgC1 100.15 Direction.LONG Confidence.HIGH indC1 =
    some rpC1 := by
  rw [calculateRiskParameters, if_neg (by rw [rrC1]; norm_num [cfgC1]),
    entryC1, tpC1, stopC1, rrC1, piC1]
  rfl

lemma validateC1 : validateRiskParameters rpC1.entryPrice rpC1.stopLoss
    rpC1.takeProfits rpC1.positionInfo = ⟨true, [], RiskLevel.MEDIUM⟩ := by
  norm_num [validateRiskParameters, calculateRiskReward, calculateLiquidationPrice,
    calculateRiskLevel, rpC1, abs_of_nonneg, abs_of_nonpos]

lemma acceptC1 : analyzeTokenAccept cfgC1 100.15 Direction.LONG Confidence.HIGH indC1 =
    some rpC1 := by
  unfold analyzeTokenAccept
  rw [rpEqC1]
  simp [validateC1]

/-- C1: the claimed invariant for accepted risk parameters fails at
`tp1 < tp2`: the resistance clamp (`tp2 → r * 0.99`) and the Supertrend
upper-band clamp (`tp2 → upperBand * 0.99`) rewrite `tp2` without regard
to `tp1`, so an accepted signal can carry `tp2 < tp1` and even
`tp2 < entryPrice` (see the counterexample).  What the acceptance gate
does guarantee — because an accepted signal has an empty warning list,
hence stop distance ≥ 0.5% of entry and first risk-reward ratio ≥ 1.5 —
is the amended ordering: for LONG, `stopLoss < entryPrice < tp1 < tp3`
and `tp2 < tp3`; for SHORT the mirror image. -/
theorem accepted_ordering_amended (cfg : RMConfig) (p : ℚ) (d : Direction)
    (c : Confidence) (ind : Indicators) (rp : RiskParameters)
    (hacc : analyzeTokenAccept cfg p d c ind = some rp)
    (hpos : 0 < rp.entryPrice) (hatr : 0 ≤ ind.risk.atr)
    (hnn : nonnegSupertrendB ind.trend.supertrend = true) :
    (d = Direction.LONG →
      rp.stopLoss < rp.entryPrice ∧ rp.entryPrice < rp.takeProfits.tp1 ∧
      rp.takeProfits.tp1 < rp.takeProfits.tp3 ∧
      rp.takeProfits.tp2 < rp.takeProfits.tp3) ∧
    (d = Direction.SHORT →
      rp.takeProfits.tp1 < rp.entryPrice ∧ rp.entryPrice < rp.stopLoss ∧
      rp.takeProfits.tp3 < rp.takeProfits.tp1 ∧
      rp.takeProfits.tp3 < rp.takeProfits.tp2) := by
  obtain ⟨hrp, -, hw, -⟩ := accept_extract cfg p d c ind rp hacc
  subst hrp
  have hw2 : (validateRiskParameters (entryPriceOf p d c ind) (stopLossOf p d c ind)
      (takeProfitsOf p d c ind) (positionInfoOf cfg p d c ind)).warnings = [] := hw
  obtain ⟨h05, hrr15⟩ := validate_warnings_nil_facts _ _ _ _ hw2
  have hpos2 : 0 < entryPriceOf p d c ind := hpos
  constructor
  · intro hd
    subst hd
    exact long_core (entryPriceOf p Direction.LONG c ind)
      (stopLossOf p Direction.LONG c ind) ind.risk.atr c ind
      ind.risk.supportResistance (takeProfitsOf p Direction.LONG c ind)
      hpos2 hatr hnn rfl rfl h05 hrr15
  · intro hd
    subst hd
    obtain ⟨h1, h2, h3, h4⟩ := short_core (entryPriceOf p Direction.SHORT c ind)
      (stopLossOf p Direction.SHORT c ind) ind.risk.atr c ind
      ind.risk.supportResistance (takeProfitsOf p Direction.SHORT c ind)
      hpos2 hatr hnn rfl rfl h05 hrr15
    exact ⟨h2, h1, h3, h4⟩

theorem accepted_ordering_amended_witness :
    rpC1.stopLoss < rpC1.entryPrice ∧ rpC1.entryPrice < rpC1.takeProfits.tp1 ∧
    rpC1.takeProfits.tp1 < rpC1.takeProfits.tp3 ∧
    rpC1.takeProfits.tp2 < rpC1.takeProfits.tp3 :=
  (accepted_ordering_amended cfgC1 100.15 Direction.LONG Confidence.HIGH indC1 rpC1
    acceptC1 (by norm_num [rpC1]) (by norm_num [indC1])
    (by norm_num [indC1, superC1, nonnegSupertrendB, nonnegOptQ])).1 rfl

/-- C1 (counterexample): a LONG signal accepted by the full pipeline on a
legal environment configuration whose take-profit ladder violates the
claimed `tp1 < tp2` ordering — the Supertrend upper-band clamp pushes
`tp2` to `49.5`, below both `tp1 = 102` and the entry `100`. -/
theorem accepted_tp_ladder_unordered_cex :
    analyzeTokenAccept cfgC1 100.15 Direction.LONG Confidence.HIGH indC1 = some rpC1 ∧
    rpC1.takeProfits.tp2 < rpC1.takeProfits.tp1 ∧
    rpC1.takeProfits.tp2 < rpC1.entryPrice :=
  ⟨acceptC1, by norm_num [rpC1], by norm_num [rpC1]⟩

end SignalBot
